import Mathlib

/-!
Verification of the recurring-billing orchestrator of django-iyzico.

The data model (SubscriptionPlan / Subscription / SubscriptionPayment) follows
src/django_iyzico/migrations/0001_add_subscription_models.py and
0002_add_payment_method_model.py.  The orchestrator (`SubscriptionManager` in
django_iyzico/subscription_manager.py) is not shipped under src/ — only its
tests (src/tests/test_subscription_manager.py), migrations, and callers are —
so its operations are modelled from the specification (spec.md §4.1, §4.2),
constrained by the behaviour pinned in the repository's tests.

Conventions of the shallow embedding:
* timestamps are seconds since an epoch, as `Nat`; one hour is 3600, one day 86400;
* monetary amounts are integers in minor currency units (two-decimal fixed point);
* calendar cadence arithmetic is abstracted to fixed day counts per interval;
* each operation is a pure function `DB → … → Except BillingError (result × DB ×
  List BEvent)`; a returned error carries no state, so an operation that errors
  performs no mutation by construction;
* Django signals are modelled as the `List BEvent` an operation emits.
-/

/-- Subscription status enum, from migration 0001 (`status` choices). -/
inductive SubscriptionStatus where
  | pending
  | trialing
  | active
  | past_due
  | paused
  | cancelled
  | expired
deriving DecidableEq, Repr

/-- Ledger-entry status enum, from migration 0001 (`SubscriptionPayment.status` choices). -/
inductive PaymentStatus where
  | pending
  | processing
  | success
  | failure
  | refund_pending
  | refunded
  | cancelled
deriving DecidableEq, Repr

/-- Billing cadence enum, from migration 0001 (`billing_interval` choices). -/
inductive BillingInterval where
  | daily
  | weekly
  | monthly
  | quarterly
  | yearly
deriving DecidableEq, Repr

/-- Pricing/policy template, from migration 0001 (`SubscriptionPlan`). -/
structure SubscriptionPlan where
  plan_id : Nat
  price : Int
  currency : String
  billing_interval : BillingInterval
  billing_interval_count : Nat
  trial_period_days : Nat
  is_active : Bool
  max_subscribers : Option Nat
deriving DecidableEq, Repr

/-- The stateful subscription record, from migration 0001 (`Subscription`).
`pending_downgrade` models the `metadata["pending_downgrade"]` entry
(new plan id × effective date) used by `downgrade_subscription`. -/
structure Subscription where
  sub_id : Nat
  user_id : Nat
  plan_id : Nat
  status : SubscriptionStatus
  start_date : Nat
  trial_end_date : Option Nat
  current_period_start : Nat
  current_period_end : Nat
  next_billing_date : Nat
  cancel_at_period_end : Bool
  cancelled_at : Option Nat
  ended_at : Option Nat
  failed_payment_count : Nat
  last_payment_error : Option String
  last_payment_attempt : Option Nat
  cancellation_reason : Option String
  pending_downgrade : Option (Nat × Nat)
deriving DecidableEq, Repr

/-- One ledger row = one billing attempt, from migration 0001 (`SubscriptionPayment`). -/
structure SubscriptionPayment where
  pay_id : Nat
  subscription_id : Nat
  user_id : Nat
  amount : Int
  currency : String
  status : PaymentStatus
  period_start : Nat
  period_end : Nat
  attempt_number : Nat
  is_retry : Bool
  is_prorated : Bool
  prorated_amount : Option Int
  provider_payment_id : Option String
  error_code : Option String
  error_message : Option String
  created_at : Nat
deriving DecidableEq, Repr

/-- The persisted state: users, plans, subscriptions and the payment ledger. -/
structure DB where
  users : List Nat
  plans : List SubscriptionPlan
  subs : List Subscription
  payments : List SubscriptionPayment
deriving DecidableEq, Repr

/-- Outcome of the single external `PaymentGateway.charge` call (spec §6):
success with a provider id, reported failure with code/message, or a raised
transport / API exception. -/
inductive GatewayOutcome where
  | success (provider_id : String)
  | failure (code msg : String)
  | apiError (msg : String)
deriving DecidableEq, Repr

/-- Lifecycle events (Django signals) emitted by the orchestrator (spec §6):
created, billed-success, billed-failure, cancelled, paused, resumed. -/
inductive BEvent where
  | created (sub_id : Nat)
  | billed_success (sub_id : Nat) (amount : Int)
  | billed_failure (sub_id : Nat) (err : String)
  | cancelled (sub_id : Nat)
  | paused (sub_id : Nat)
  | resumed (sub_id : Nat)
deriving DecidableEq, Repr

/-- Errors surfaced by an operation: a typed validation error
(`IyzicoValidationException`) or a database integrity error from the
unique-tuple schema constraint. -/
inductive BillingError where
  | validation (msg : String)
  | integrity
deriving DecidableEq, Repr

/-- The first list starts with the second one. -/
def leadsWith : List Char → List Char → Bool
  | _, [] => true
  | [], _ :: _ => false
  | a :: as, b :: bs => a == b && leadsWith as bs

/-- The pattern occurs somewhere inside the list. -/
def occursIn (pat : List Char) : List Char → Bool
  | [] => leadsWith [] pat
  | c :: t => leadsWith (c :: t) pat || occursIn pat t

/-- `true` iff the haystack contains the needle as a substring; used to state
the message checks that the repository's tests perform with Python's `in`. -/
def containsStr (hay needle : String) : Bool :=
  occursIn needle.data hay.data

/-- Days per cadence unit; calendar months/quarters/years abstracted to
30/90/365 days. -/
def intervalDays : BillingInterval → Nat
  | .daily => 1
  | .weekly => 7
  | .monthly => 30
  | .quarterly => 90
  | .yearly => 365

/-- Length of one plan cadence in seconds. -/
def intervalSeconds (plan : SubscriptionPlan) : Nat :=
  intervalDays plan.billing_interval * plan.billing_interval_count * 86400

/-- Two ledger rows collide on the schema-unique tuple
(subscription, period_start, period_end, attempt_number). -/
def sameTuple (p q : SubscriptionPayment) : Prop :=
  p.subscription_id = q.subscription_id ∧ p.period_start = q.period_start ∧
    p.period_end = q.period_end ∧ p.attempt_number = q.attempt_number

instance (p q : SubscriptionPayment) : Decidable (sameTuple p q) := by
  unfold sameTuple; infer_instance

/-- The ledger respects the schema constraint
`unique_subscription_payment_period` from migration 0002: all rows have
pairwise-distinct (subscription, period_start, period_end, attempt_number). -/
def PaymentsUnique (l : List SubscriptionPayment) : Prop :=
  l.Pairwise (fun p q => ¬ sameTuple p q)

/-- The database-level insert of a ledger row.  Models the standing schema
constraint `unique_subscription_payment_period` declared in
src/django_iyzico/migrations/0002_add_payment_method_model.py: an insert whose
tuple collides with an existing row is rejected by the database itself
(IntegrityError), independent of any application-level check. -/
def insertPayment (db : DB) (p : SubscriptionPayment) : Option DB :=
  if db.payments.any (fun q => decide (sameTuple q p)) then none
  else some { db with payments := db.payments ++ [p] }

/-- Replace every subscription row bearing the updated record's id. -/
def updateSub (db : DB) (sub : Subscription) : DB :=
  { db with subs := db.subs.map (fun s => if s.sub_id == sub.sub_id then sub else s) }

/-- Result of the gateway call as recorded on the ledger row, per
`_create_subscription_payment`'s tests: a reported failure carries the
provider's code/message; a raised API exception is caught and converted into a
failure row whose error message is the exception text. -/
structure ChargeRecord where
  status : PaymentStatus
  provider_payment_id : Option String
  error_code : Option String
  error_message : Option String
deriving DecidableEq, Repr

/-- Convert a gateway outcome into the recorded charge result. -/
def chargeOutcome : GatewayOutcome → ChargeRecord
  | .success pid => ⟨.success, some pid, none, none⟩
  | .failure code msg => ⟨.failure, none, some code, some msg⟩
  | .apiError msg => ⟨.failure, none, none, some msg⟩

/-- Modelled from the spec: `process_billing` is callable only when status is
active, past_due, or trialing at trial expiry (spec §4.1); the manager itself
is missing from src/. -/
def canBill (sub : Subscription) (now : Nat) : Bool :=
  match sub.status with
  | .active => true
  | .past_due => true
  | .trialing =>
      match sub.trial_end_date with
      | some t => decide (t ≤ now)
      | none => false
  | _ => false

/-- Modelled from the spec: the dedup lookup of `process_billing` — an
existing successful ledger row for the exact same (subscription, period)
created within the last hour (spec §4.1); the manager itself is missing from
src/. -/
def findRecentSuccess (db : DB) (sub : Subscription) (now : Nat) :
    Option SubscriptionPayment :=
  db.payments.find? (fun p =>
    p.subscription_id == sub.sub_id && p.status == PaymentStatus.success &&
      p.period_start == sub.current_period_start &&
      p.period_end == sub.current_period_end &&
      decide (now ≤ p.created_at + 3600))

/-- Subscription state after a successful charge (spec §4.1): reset
failed_payment_count to 0, advance the period window and next_billing_date by
one plan cadence, status → active. -/
def advanceOnSuccess (sub : Subscription) (plan : SubscriptionPlan) (now : Nat) :
    Subscription :=
  { sub with
    failed_payment_count := 0
    status := .active
    current_period_start := sub.current_period_end
    current_period_end := sub.current_period_end + intervalSeconds plan
    next_billing_date := sub.next_billing_date + intervalSeconds plan
    last_payment_attempt := some now }

/-- Subscription state after a failed charge (spec §4.1): increment
failed_payment_count, record last_payment_error and the attempt timestamp,
status → past_due. -/
def markFailure (sub : Subscription) (emsg : Option String) (now : Nat) :
    Subscription :=
  { sub with
    failed_payment_count := sub.failed_payment_count + 1
    status := .past_due
    last_payment_error := emsg
    last_payment_attempt := some now }

/-- The new ledger row a billing attempt creates (spec §4.1): attempt_number =
failed_payment_count + 1, is_retry = (failed_payment_count > 0), for the
subscription's current period, recording the gateway outcome. -/
def billingRow (sub : Subscription) (plan : SubscriptionPlan) (now : Nat)
    (gw : GatewayOutcome) (new_pay_id : Nat) : SubscriptionPayment :=
  let cr := chargeOutcome gw
  { pay_id := new_pay_id
    subscription_id := sub.sub_id
    user_id := sub.user_id
    amount := plan.price
    currency := plan.currency
    status := cr.status
    period_start := sub.current_period_start
    period_end := sub.current_period_end
    attempt_number := sub.failed_payment_count + 1
    is_retry := decide (0 < sub.failed_payment_count)
    is_prorated := false
    prorated_amount := none
    provider_payment_id := cr.provider_payment_id
    error_code := cr.error_code
    error_message := cr.error_message
    created_at := now }

/-- Modelled from the spec: the charge-and-record tail of `process_billing`
(spec §4.1, §4.2) — create the ledger row with attempt_number =
failed_payment_count + 1 and is_retry = (failed_payment_count > 0), call the
gateway, persist the outcome, and emit a billed-success / billed-failure
signal; the manager itself is missing from src/. -/
def chargeAndRecord (db : DB) (sub : Subscription) (plan : SubscriptionPlan)
    (now : Nat) (gw : GatewayOutcome) (new_pay_id : Nat) :
    Except BillingError (SubscriptionPayment × DB × List BEvent) :=
  match insertPayment db (billingRow sub plan now gw new_pay_id) with
  | none => .error .integrity
  | some db1 =>
      if (chargeOutcome gw).status = PaymentStatus.success then
        .ok (billingRow sub plan now gw new_pay_id,
          updateSub db1 (advanceOnSuccess sub plan now),
          [.billed_success sub.sub_id plan.price])
      else
        .ok (billingRow sub plan now gw new_pay_id,
          updateSub db1 (markFailure sub (chargeOutcome gw).error_message now),
          [.billed_failure sub.sub_id (((chargeOutcome gw).error_message).getD "")])

/-- Modelled from the spec: `SubscriptionManager.process_billing` (spec §4.1);
the manager itself is missing from src/.  Checks billable status, applies the
one-hour dedup short-circuit on a successful row for the same period, and
otherwise charges through `chargeAndRecord`. -/
def process_billing (db : DB) (sid now : Nat) (gw : GatewayOutcome)
    (new_pay_id : Nat) :
    Except BillingError (SubscriptionPayment × DB × List BEvent) :=
  match db.subs.find? (fun s => s.sub_id == sid) with
  | none => .error (.validation "subscription not found")
  | some sub =>
      if canBill sub now then
        match findRecentSuccess db sub now with
        | some p => .ok (p, db, [])
        | none =>
            match db.plans.find? (fun pl => pl.plan_id == sub.plan_id) with
            | none => .error (.validation "plan not found")
            | some plan => chargeAndRecord db sub plan now gw new_pay_id
      else .error (.validation "subscription cannot be billed")

/-- Count of subscriptions on a plan in a non-terminal status (terminal =
cancelled / expired); used by the capacity guard. -/
def nonTerminalCount (db : DB) (plan_id : Nat) : Nat :=
  (db.subs.filter (fun s =>
    s.plan_id == plan_id &&
      !(s.status == SubscriptionStatus.cancelled ||
        s.status == SubscriptionStatus.expired))).length

/-- The plan's subscriber cap is already reached by non-terminal subscriptions. -/
def atCapacity (db : DB) (plan : SubscriptionPlan) : Bool :=
  match plan.max_subscribers with
  | some cap => decide (cap ≤ nonTerminalCount db plan.plan_id)
  | none => false

/-- The subscription record a trial-creation produces (spec §4.1): status
trialing, trial_end_date = start + trial days, next_billing_date at trial end,
no charge. -/
def trialSub (new_sub_id uid plan_id : Nat) (plan : SubscriptionPlan)
    (now : Nat) : Subscription :=
  { sub_id := new_sub_id, user_id := uid, plan_id := plan_id
    status := .trialing, start_date := now
    trial_end_date := some (now + plan.trial_period_days * 86400)
    current_period_start := now
    current_period_end := now + plan.trial_period_days * 86400
    next_billing_date := now + plan.trial_period_days * 86400
    cancel_at_period_end := false
    cancelled_at := none, ended_at := none, failed_payment_count := 0
    last_payment_error := none, last_payment_attempt := none
    cancellation_reason := none, pending_downgrade := none }

/-- The ledger row of the immediate charge attempted by a no-trial creation
(spec §4.1): attempt 1, not a retry, covering the first period. -/
def initialRow (new_sub_id uid : Nat) (plan : SubscriptionPlan) (now : Nat)
    (gw : GatewayOutcome) (new_pay_id : Nat) : SubscriptionPayment :=
  let cr := chargeOutcome gw
  { pay_id := new_pay_id, subscription_id := new_sub_id, user_id := uid
    amount := plan.price, currency := plan.currency, status := cr.status
    period_start := now, period_end := now + intervalSeconds plan
    attempt_number := 1
    is_retry := false, is_prorated := false, prorated_amount := none
    provider_payment_id := cr.provider_payment_id
    error_code := cr.error_code, error_message := cr.error_message
    created_at := now }

/-- The subscription record a no-trial creation produces (spec §4.1): active
on a successful immediate charge; past_due with failed_payment_count = 1 and
the error recorded when the charge fails. -/
def initialSub (new_sub_id uid plan_id : Nat) (plan : SubscriptionPlan)
    (now : Nat) (gw : GatewayOutcome) : Subscription :=
  let cr := chargeOutcome gw
  let base : Subscription :=
    { sub_id := new_sub_id, user_id := uid, plan_id := plan_id
      status := .active, start_date := now, trial_end_date := none
      current_period_start := now
      current_period_end := now + intervalSeconds plan
      next_billing_date := now + intervalSeconds plan
      cancel_at_period_end := false
      cancelled_at := none, ended_at := none, failed_payment_count := 0
      last_payment_error := none, last_payment_attempt := some now
      cancellation_reason := none, pending_downgrade := none }
  if cr.status = PaymentStatus.success then base
  else { base with
         status := .past_due, failed_payment_count := 1
         last_payment_error := cr.error_message }

/-- Modelled from the spec: `SubscriptionManager.create_subscription`
(spec §4.1); the manager itself is missing from src/.  The inactive-plan
message follows the repository's own test
(test_create_subscription_inactive_plan_raises_error, src/tests, asserts
"not available" occurs in the message); the capacity message follows the
spec's "plan at capacity".  A created event is always emitted regardless of
the charge outcome. -/
def create_subscription (db : DB) (new_sub_id uid plan_id : Nat) (trial : Bool)
    (now : Nat) (gw : GatewayOutcome) (new_pay_id : Nat) :
    Except BillingError (Subscription × DB × List BEvent) :=
  match db.plans.find? (fun pl => pl.plan_id == plan_id) with
  | none => .error (.validation "plan not found")
  | some plan =>
      if plan.is_active = false then
        .error (.validation "Plan is not available for new subscriptions")
      else if atCapacity db plan then
        .error (.validation "plan at capacity")
      else if trial && decide (0 < plan.trial_period_days) then
        .ok (trialSub new_sub_id uid plan_id plan now,
          { db with subs := db.subs ++ [trialSub new_sub_id uid plan_id plan now] },
          [.created new_sub_id])
      else
        match insertPayment db (initialRow new_sub_id uid plan now gw new_pay_id) with
        | none => .error .integrity
        | some db1 =>
            .ok (initialSub new_sub_id uid plan_id plan now gw,
              { db1 with
                subs := db1.subs ++ [initialSub new_sub_id uid plan_id plan now gw] },
              [.created new_sub_id])

/-- Modelled from the spec: `SubscriptionManager.cancel_subscription`
(spec §4.1); the manager itself is missing from src/.  Idempotent: cancelling
an already-cancelled subscription is a no-op returning the current record. -/
def cancel_subscription (db : DB) (sid : Nat) (at_period_end : Bool)
    (reason : Option String) (now : Nat) :
    Except BillingError (Subscription × DB × List BEvent) :=
  match db.subs.find? (fun s => s.sub_id == sid) with
  | none => .error (.validation "subscription not found")
  | some sub =>
      if sub.status = SubscriptionStatus.cancelled then .ok (sub, db, [])
      else if at_period_end then
        let sub' := { sub with
                      cancel_at_period_end := true
                      cancelled_at := some now, cancellation_reason := reason }
        .ok (sub', updateSub db sub', [.cancelled sid])
      else
        let sub' := { sub with
                      status := .cancelled, cancelled_at := some now
                      ended_at := some now, cancellation_reason := reason }
        .ok (sub', updateSub db sub', [.cancelled sid])

/-- Modelled from the spec: `SubscriptionManager.pause_subscription`
(spec §4.1); the manager itself is missing from src/. -/
def pause_subscription (db : DB) (sid : Nat) :
    Except BillingError (Subscription × DB × List BEvent) :=
  match db.subs.find? (fun s => s.sub_id == sid) with
  | none => .error (.validation "subscription not found")
  | some sub =>
      if sub.status = SubscriptionStatus.active then
        let sub' := { sub with status := .paused }
        .ok (sub', updateSub db sub', [.paused sid])
      else .error (.validation "only active subscriptions can be paused")

/-- Modelled from the spec: `SubscriptionManager.resume_subscription`
(spec §4.1); the manager itself is missing from src/. -/
def resume_subscription (db : DB) (sid : Nat) :
    Except BillingError (Subscription × DB × List BEvent) :=
  match db.subs.find? (fun s => s.sub_id == sid) with
  | none => .error (.validation "subscription not found")
  | some sub =>
      if sub.status = SubscriptionStatus.paused then
        let sub' := { sub with status := .active }
        .ok (sub', updateSub db sub', [.resumed sid])
      else .error (.validation "only paused subscriptions can be resumed")

/-- Pure proration of §4.3: charge the price delta for the remaining fraction
of the current period, in minor units with integer (floor) rounding. -/
def prorationAmount (price_delta : Int) (period_len remaining : Nat) : Int :=
  if period_len = 0 then 0 else price_delta * (remaining : Int) / (period_len : Int)

/-- The prorated ledger row billed by an upgrade with proration (spec §4.1,
§4.3): the price delta for the remaining fraction of the current period,
billed through the same ledger path as process_billing. -/
def proratedRow (sub : Subscription) (cur new_plan : SubscriptionPlan)
    (now : Nat) (gw : GatewayOutcome) (new_pay_id : Nat) : SubscriptionPayment :=
  let amt := prorationAmount (new_plan.price - cur.price)
    (sub.current_period_end - sub.current_period_start)
    (sub.current_period_end - now)
  let cr := chargeOutcome gw
  { pay_id := new_pay_id, subscription_id := sub.sub_id
    user_id := sub.user_id, amount := amt
    currency := new_plan.currency, status := cr.status
    period_start := sub.current_period_start
    period_end := sub.current_period_end
    attempt_number := sub.failed_payment_count + 1
    is_retry := decide (0 < sub.failed_payment_count)
    is_prorated := true, prorated_amount := some amt
    provider_payment_id := cr.provider_payment_id
    error_code := cr.error_code
    error_message := cr.error_message, created_at := now }

/-- Modelled from the spec: `SubscriptionManager.upgrade_subscription`
(spec §4.1); the manager itself is missing from src/.  Requires an active
subscription and a strictly pricier plan, else a validation error
"must be a higher-tier plan" with no mutation; with proration, bills the
prorated delta through the same ledger path. -/
def upgrade_subscription (db : DB) (sid new_plan_id : Nat) (prorate : Bool)
    (now : Nat) (gw : GatewayOutcome) (new_pay_id : Nat) :
    Except BillingError (Subscription × DB × List BEvent) :=
  match db.subs.find? (fun s => s.sub_id == sid) with
  | none => .error (.validation "subscription not found")
  | some sub =>
      if sub.status = SubscriptionStatus.active then
        match db.plans.find? (fun pl => pl.plan_id == sub.plan_id),
            db.plans.find? (fun pl => pl.plan_id == new_plan_id) with
        | some cur, some new_plan =>
            if cur.price < new_plan.price then
              if prorate then
                match insertPayment db (proratedRow sub cur new_plan now gw new_pay_id) with
                | none => .error .integrity
                | some db1 =>
                    .ok ({ sub with plan_id := new_plan_id },
                      updateSub db1 { sub with plan_id := new_plan_id }, [])
              else
                .ok ({ sub with plan_id := new_plan_id },
                  updateSub db { sub with plan_id := new_plan_id }, [])
            else .error (.validation "must be a higher-tier plan")
        | _, _ => .error (.validation "plan not found")
      else .error (.validation "subscription must be active to upgrade")

/-- Modelled from the spec: `SubscriptionManager.downgrade_subscription`
(spec §4.1); the manager itself is missing from src/.  Requires a strictly
cheaper plan, else a validation error "must be a lower-tier plan" with no
mutation; at period end the change is stashed in metadata as
pending_downgrade, otherwise the plan reference changes immediately. -/
def downgrade_subscription (db : DB) (sid new_plan_id : Nat)
    (at_period_end : Bool) (_now : Nat) :
    Except BillingError (Subscription × DB × List BEvent) :=
  match db.subs.find? (fun s => s.sub_id == sid) with
  | none => .error (.validation "subscription not found")
  | some sub =>
      match db.plans.find? (fun pl => pl.plan_id == sub.plan_id),
          db.plans.find? (fun pl => pl.plan_id == new_plan_id) with
      | some cur, some new_plan =>
          if new_plan.price < cur.price then
            if at_period_end then
              let sub' := { sub with
                pending_downgrade := some (new_plan_id, sub.current_period_end) }
              .ok (sub', updateSub db sub', [])
            else
              let sub' := { sub with plan_id := new_plan_id }
              .ok (sub', updateSub db sub', [])
          else .error (.validation "must be a lower-tier plan")
      | _, _ => .error (.validation "plan not found")

/-- Deletion of a user with the cascade semantics declared in the migrations
under src/: `Subscription.user` and `SubscriptionPayment.user` /
`SubscriptionPayment.subscription` are all on_delete=CASCADE (migration 0001),
so deleting a user removes the user's subscriptions and their ledger rows. -/
def deleteUser (db : DB) (uid : Nat) : DB :=
  let dead := (db.subs.filter (fun s => s.user_id == uid)).map (fun s => s.sub_id)
  { db with
    users := db.users.filter (fun u => !(u == uid))
    subs := db.subs.filter (fun s => !(s.user_id == uid))
    payments := db.payments.filter (fun p =>
      !(p.user_id == uid) && !(dead.contains p.subscription_id)) }

/-- Deletion of a plan: `Subscription.plan` is on_delete=PROTECT (migration
0001), so a plan referenced by any subscription cannot be deleted. -/
def deletePlan (db : DB) (pid : Nat) : Option DB :=
  if db.subs.any (fun s => s.plan_id == pid) then none
  else some { db with plans := db.plans.filter (fun pl => !(pl.plan_id == pid)) }

/-- Number of successful ledger rows for one (subscription, period) tuple. -/
def successCount (db : DB) (sid ps pe : Nat) : Nat :=
  (db.payments.filter (fun p =>
    p.subscription_id == sid && p.status == PaymentStatus.success &&
      p.period_start == ps && p.period_end == pe)).length

/-- Repeated `process_billing` invocations on one subscription: each call is a
(timestamp, gateway outcome, fresh row id); a call that errors leaves the
state untouched. -/
def runBilling (db : DB) (sid : Nat) :
    List (Nat × GatewayOutcome × Nat) → DB
  | [] => db
  | (now, gw, pid) :: rest =>
      match process_billing db sid now gw pid with
      | .ok (_, db', _) => runBilling db' sid rest
      | .error _ => runBilling db sid rest

/-- Every plan on file respects the migration-0001 validator
MinValueValidator(1) on billing_interval_count. -/
def PlansWF (db : DB) : Prop :=
  ∀ pl ∈ db.plans, 1 ≤ pl.billing_interval_count

/-- One orchestrator lifecycle step (any of the seven manager operations),
relating a state to a successor state. -/
inductive LifecycleStep : DB → DB → Prop where
  | create (db : DB) (a b c : Nat) (t : Bool) (n : Nat) (g : GatewayOutcome)
      (i : Nat) (s : Subscription) (db' : DB) (ev : List BEvent)
      (h : create_subscription db a b c t n g i = .ok (s, db', ev)) :
      LifecycleStep db db'
  | bill (db : DB) (a n : Nat) (g : GatewayOutcome) (i : Nat)
      (p : SubscriptionPayment) (db' : DB) (ev : List BEvent)
      (h : process_billing db a n g i = .ok (p, db', ev)) :
      LifecycleStep db db'
  | cancel (db : DB) (a : Nat) (e : Bool) (r : Option String) (n : Nat)
      (s : Subscription) (db' : DB) (ev : List BEvent)
      (h : cancel_subscription db a e r n = .ok (s, db', ev)) :
      LifecycleStep db db'
  | pause (db : DB) (a : Nat) (s : Subscription) (db' : DB) (ev : List BEvent)
      (h : pause_subscription db a = .ok (s, db', ev)) :
      LifecycleStep db db'
  | resume (db : DB) (a : Nat) (s : Subscription) (db' : DB) (ev : List BEvent)
      (h : resume_subscription db a = .ok (s, db', ev)) :
      LifecycleStep db db'
  | upgrade (db : DB) (a b : Nat) (pr : Bool) (n : Nat) (g : GatewayOutcome)
      (i : Nat) (s : Subscription) (db' : DB) (ev : List BEvent)
      (h : upgrade_subscription db a b pr n g i = .ok (s, db', ev)) :
      LifecycleStep db db'
  | downgrade (db : DB) (a b : Nat) (e : Bool) (n : Nat)
      (s : Subscription) (db' : DB) (ev : List BEvent)
      (h : downgrade_subscription db a b e n = .ok (s, db', ev)) :
      LifecycleStep db db'

/-- One system step: a lifecycle step or a deletion of a related entity. -/
inductive SystemStep : DB → DB → Prop where
  | lifecycle (db db' : DB) (h : LifecycleStep db db') : SystemStep db db'
  | delUser (db : DB) (uid : Nat) : SystemStep db (deleteUser db uid)
  | delPlan (db : DB) (pid : Nat) (db' : DB) (h : deletePlan db pid = some db') :
      SystemStep db db'

/-- A concrete inactive plan and a store holding it, used to witness the
inactive-plan creation guard. -/
def exPlanInactive : SubscriptionPlan :=
  { plan_id := 1, price := 9999, currency := "TRY", billing_interval := .monthly
    billing_interval_count := 1, trial_period_days := 0, is_active := false
    max_subscribers := none }

/-- Store with one inactive plan and no subscriptions. -/
def exDbInactive : DB :=
  { users := [2], plans := [exPlanInactive], subs := [], payments := [] }

def exSubCancelled : Subscription :=
  { sub_id := 10, user_id := 1, plan_id := 1, status := .cancelled
    start_date := 0, trial_end_date := none, current_period_start := 0
    current_period_end := 2592000, next_billing_date := 2592000
    cancel_at_period_end := false, cancelled_at := some 100, ended_at := some 100
    failed_payment_count := 0, last_payment_error := none
    last_payment_attempt := none, cancellation_reason := none
    pending_downgrade := none }

def exDbCancelled : DB :=
  { users := [1], plans := [], subs := [exSubCancelled]
    payments := [{ pay_id := 7, subscription_id := 10, user_id := 1
                   amount := 9999, currency := "TRY", status := .success
                   period_start := 0, period_end := 2592000, attempt_number := 1
                   is_retry := false, is_prorated := false, prorated_amount := none
                   provider_payment_id := some "P", error_code := none
                   error_message := none, created_at := 50 }] }

def c4Plan : SubscriptionPlan :=
  { plan_id := 1, price := 9999, currency := "TRY", billing_interval := .monthly
    billing_interval_count := 1, trial_period_days := 0, is_active := true
    max_subscribers := none }

def c4Sub : Subscription :=
  { sub_id := 1, user_id := 1, plan_id := 1, status := .active, start_date := 0
    trial_end_date := none, current_period_start := 0
    current_period_end := 2592000, next_billing_date := 2592000
    cancel_at_period_end := false, cancelled_at := none, ended_at := none
    failed_payment_count := 0, last_payment_error := none
    last_payment_attempt := none, cancellation_reason := none
    pending_downgrade := none }

def c4SubAfter : Nat → Subscription
  | 0 => c4Sub
  | k + 1 => markFailure (c4SubAfter k) (some "declined") 0

def c4FailRow (i : Nat) : SubscriptionPayment :=
  billingRow (c4SubAfter i) c4Plan 0 (GatewayOutcome.failure "code" "declined") i

def c4DbAfter (k : Nat) : DB :=
  { users := [1], plans := [c4Plan], subs := [c4SubAfter k]
    payments := (List.range k).map c4FailRow }

def c4SuccessRow (n : Nat) : SubscriptionPayment :=
  billingRow (c4SubAfter n) c4Plan 0 (GatewayOutcome.success "prov") n

def c4Final (n : Nat) : DB :=
  { users := [1], plans := [c4Plan]
    subs := [advanceOnSuccess (c4SubAfter n) c4Plan 0]
    payments := (List.range n).map c4FailRow ++ [c4SuccessRow n] }

def c4Calls (n : Nat) : List (Nat × GatewayOutcome × Nat) :=
  (List.range n).map (fun i => (0, GatewayOutcome.failure "code" "declined", i)) ++
    [(0, GatewayOutcome.success "prov", n)]

/-- A recent successful ledger row for c4Sub's current period, used to
witness the dedup short-circuit. -/
def exPayRecent : SubscriptionPayment :=
  { pay_id := 7, subscription_id := 1, user_id := 1, amount := 9999
    currency := "TRY", status := .success, period_start := 0
    period_end := 2592000, attempt_number := 1, is_retry := false
    is_prorated := false, prorated_amount := none
    provider_payment_id := some "P", error_code := none, error_message := none
    created_at := 1000 }

/-- Store holding c4Sub together with a recent successful row for its period. -/
def exDbDedup : DB :=
  { users := [1], plans := [c4Plan], subs := [c4Sub], payments := [exPayRecent] }

/-- A cheaper plan than c4Plan. -/
def exPlanCheap : SubscriptionPlan := { c4Plan with plan_id := 2, price := 4999 }

/-- A pricier plan than c4Plan. -/
def exPlanPricey : SubscriptionPlan := { c4Plan with plan_id := 3, price := 19999 }

/-- Store with three plans of distinct prices and one active subscription. -/
def exDbTwoPlans : DB :=
  { users := [1], plans := [c4Plan, exPlanCheap, exPlanPricey], subs := [c4Sub]
    payments := [] }

/-- c4Plan with a subscriber cap of one. -/
def exPlanCapped : SubscriptionPlan := { c4Plan with max_subscribers := some 1 }

/-- Store whose single capped plan already holds one active subscriber. -/
def exDbCapped : DB :=
  { users := [1, 2], plans := [exPlanCapped], subs := [c4Sub], payments := [] }

/-- c4Plan with a 14-day trial. -/
def exPlanTrial : SubscriptionPlan := { c4Plan with trial_period_days := 14 }

/-- Store with a trial plan and no subscriptions. -/
def exDbTrial : DB :=
  { users := [2], plans := [exPlanTrial], subs := [], payments := [] }

/-- c4Sub after a pause. -/
def exPausedSub : Subscription := { c4Sub with status := .paused }

/-- The store reached by pausing c4Sub. -/
def exDbPaused : DB := updateSub (c4DbAfter 0) exPausedSub

/-- c4Sub after an immediate cancellation at time 5 with reason "r". -/
def exCancelledOnce : Subscription :=
  { c4Sub with
    status := .cancelled
    cancelled_at := some 5
    ended_at := some 5
    cancellation_reason := some "r" }

/-- The store reached by immediately cancelling c4Sub. -/
def exDbCancelledOnce : DB := updateSub (c4DbAfter 0) exCancelledOnce


lemma insertPayment_eq_some {db : DB} {p : SubscriptionPayment} {db' : DB}
    (h : insertPayment db p = some db') :
    db' = { db with payments := db.payments ++ [p] } := by
  unfold insertPayment at h
  split at h
  · exact absurd h (by simp)
  · simpa using h.symm

lemma insertPayment_of_fresh {db : DB} {p : SubscriptionPayment}
    (h : ∀ q ∈ db.payments, ¬ sameTuple q p) :
    insertPayment db p = some { db with payments := db.payments ++ [p] } := by
  unfold insertPayment
  split
  · rename_i hc
    rcases List.any_eq_true.mp hc with ⟨q, hq, hqt⟩
    exact absurd (of_decide_eq_true hqt) (h q hq)
  · rfl

lemma mem_updateSub_eq {db : DB} {u s : Subscription}
    (hs : s ∈ (updateSub db u).subs) (hid : s.sub_id = u.sub_id) : s = u := by
  unfold updateSub at hs
  rcases List.mem_map.mp hs with ⟨t, _, rfl⟩
  by_cases h : t.sub_id == u.sub_id
  · simp [h]
  · simp [h] at hid ⊢
    exact absurd hid (by simpa using h)

lemma find_updateSub {l : List Subscription} {u : Subscription} {sid : Nat}
    (hid : u.sub_id = sid) {t : Subscription}
    (hfind : l.find? (fun s => s.sub_id == sid) = some t) :
    (l.map (fun s => if s.sub_id == u.sub_id then u else s)).find?
      (fun s => s.sub_id == sid) = some u := by
  induction l with
  | nil => simp at hfind
  | cons a l ih =>
      by_cases ha : (a.sub_id == sid)
      · have haeq : a.sub_id = sid := by simpa using ha
        simp only [List.map_cons]
        rw [if_pos (by simpa [hid] using ha)]
        exact List.find?_cons_of_pos _ (by simpa using hid)
      · have h1 : l.find? (fun s => s.sub_id == sid) = some t := by
          rwa [List.find?_cons_of_neg _ (by simpa using ha)] at hfind
        simp only [List.map_cons]
        rw [if_neg (by simp_all [hid])]
        rw [List.find?_cons_of_neg _ (by simpa using ha)]
        exact ih h1

lemma process_billing_charge {db : DB} {sid now : Nat}
    {sub : Subscription} {plan : SubscriptionPlan}
    (hfind : db.subs.find? (fun s => s.sub_id == sid) = some sub)
    (hbill : canBill sub now = true)
    (hdedup : findRecentSuccess db sub now = none)
    (hplan : db.plans.find? (fun pl => pl.plan_id == sub.plan_id) = some plan)
    (gw : GatewayOutcome) (pid : Nat) :
    process_billing db sid now gw pid = chargeAndRecord db sub plan now gw pid := by
  simp [process_billing, hfind, hbill, hdedup, hplan]

lemma chargeAndRecord_eq {db : DB} {sub : Subscription}
    {plan : SubscriptionPlan} {now : Nat} {gw : GatewayOutcome} {pid : Nat}
    (hfresh : ∀ q ∈ db.payments, ¬ sameTuple q (billingRow sub plan now gw pid)) :
    chargeAndRecord db sub plan now gw pid =
      if (chargeOutcome gw).status = PaymentStatus.success then
        .ok (billingRow sub plan now gw pid,
          updateSub { db with
              payments := db.payments ++ [billingRow sub plan now gw pid] }
            (advanceOnSuccess sub plan now),
          [.billed_success sub.sub_id plan.price])
      else
        .ok (billingRow sub plan now gw pid,
          updateSub { db with
              payments := db.payments ++ [billingRow sub plan now gw pid] }
            (markFailure sub (chargeOutcome gw).error_message now),
          [.billed_failure sub.sub_id (((chargeOutcome gw).error_message).getD "")]) := by
  unfold chargeAndRecord
  simp only [insertPayment_of_fresh hfresh]

lemma fresh_billingRow {db : DB} {sub : Subscription} {plan : SubscriptionPlan}
    {now : Nat} (gw : GatewayOutcome) (pid : Nat)
    (hfresh : ∀ q ∈ db.payments,
      ¬(q.subscription_id = sub.sub_id ∧ q.period_start = sub.current_period_start ∧
        q.period_end = sub.current_period_end ∧
        q.attempt_number = sub.failed_payment_count + 1)) :
    ∀ q ∈ db.payments, ¬ sameTuple q (billingRow sub plan now gw pid) := by
  intro q hq hcol
  exact hfresh q hq (by simpa [sameTuple, billingRow] using hcol)

/-- Claim C3: on the charging path of process_billing (no dedup
short-circuit), a successful gateway charge leaves the subscription with
failed_payment_count = 0 and status active, while a failed charge increments
failed_payment_count by one, records last_payment_error, and sets status
past_due. -/
theorem process_billing_outcome_transitions
    (db : DB) (sid now pid : Nat) (sub : Subscription)
    (plan : SubscriptionPlan)
    (hfind : db.subs.find? (fun s => s.sub_id == sid) = some sub)
    (hbill : canBill sub now = true)
    (hdedup : findRecentSuccess db sub now = none)
    (hplan : db.plans.find? (fun pl => pl.plan_id == sub.plan_id) = some plan)
    (hfresh : ∀ q ∈ db.payments,
      ¬(q.subscription_id = sub.sub_id ∧ q.period_start = sub.current_period_start ∧
        q.period_end = sub.current_period_end ∧
        q.attempt_number = sub.failed_payment_count + 1)) :
    (∀ prov : String, ∃ pay db' ev,
       process_billing db sid now (.success prov) pid = .ok (pay, db', ev) ∧
       ∀ s ∈ db'.subs, s.sub_id = sub.sub_id →
         s.failed_payment_count = 0 ∧ s.status = SubscriptionStatus.active)
    ∧
    (∀ code m : String, ∃ pay db' ev,
       process_billing db sid now (.failure code m) pid = .ok (pay, db', ev) ∧
       ∀ s ∈ db'.subs, s.sub_id = sub.sub_id →
         s.failed_payment_count = sub.failed_payment_count + 1 ∧
         s.last_payment_error = some m ∧
         s.status = SubscriptionStatus.past_due) := by
  constructor
  · intro prov
    rw [process_billing_charge hfind hbill hdedup hplan,
      chargeAndRecord_eq (fresh_billingRow _ pid hfresh),
      if_pos (show (chargeOutcome (GatewayOutcome.success prov)).status =
        PaymentStatus.success from rfl)]
    refine ⟨_, _, _, rfl, ?_⟩
    intro s hs hid
    have := mem_updateSub_eq hs (by simpa [advanceOnSuccess] using hid)
    subst this
    exact ⟨rfl, rfl⟩
  · intro code m
    rw [process_billing_charge hfind hbill hdedup hplan,
      chargeAndRecord_eq (fresh_billingRow _ pid hfresh),
      if_neg (by simp [chargeOutcome])]
    refine ⟨_, _, _, rfl, ?_⟩
    intro s hs hid
    have := mem_updateSub_eq hs (by simpa [markFailure] using hid)
    subst this
    exact ⟨rfl, rfl, rfl⟩

/-- Claim C5: cancellation is idempotent — cancelling an already-cancelled
subscription raises no error, performs no mutation and returns the current
record, and after an immediate cancel a second cancel call (with any
arguments) returns the same record and the same state with no event. -/
theorem cancel_subscription_idempotent :
    (∀ (db : DB) (sid : Nat) (e : Bool) (r : Option String) (now : Nat)
       (sub : Subscription),
       db.subs.find? (fun s => s.sub_id == sid) = some sub →
       sub.status = SubscriptionStatus.cancelled →
       cancel_subscription db sid e r now = .ok (sub, db, []))
    ∧
    (∀ (db : DB) (sid : Nat) (r : Option String) (now : Nat)
       (s1 : Subscription) (db1 : DB) (ev1 : List BEvent),
       cancel_subscription db sid false r now = .ok (s1, db1, ev1) →
       ∀ (e2 : Bool) (r2 : Option String) (now2 : Nat),
         cancel_subscription db1 sid e2 r2 now2 = .ok (s1, db1, [])) := by
  constructor
  · intro db sid e r now sub hfind hst
    simp [cancel_subscription, hfind, hst]
  · intro db sid r now s1 db1 ev1 h e2 r2 now2
    cases hfind : db.subs.find? (fun s => s.sub_id == sid) with
    | none => simp [cancel_subscription, hfind] at h
    | some sub =>
        have hsid : sub.sub_id = sid := by simpa using List.find?_some hfind
        by_cases hst : sub.status = SubscriptionStatus.cancelled
        · simp only [cancel_subscription, hfind, if_pos hst] at h
          rcases h with ⟨rfl, rfl, rfl⟩
          simp [cancel_subscription, hfind, hst]
        · simp only [cancel_subscription, hfind, if_neg hst,
            Bool.false_eq_true, if_false, Except.ok.injEq, Prod.mk.injEq] at h
          rcases h with ⟨rfl, rfl, rfl⟩
          have hfind1 := find_updateSub (u := { sub with
                     status := SubscriptionStatus.cancelled, cancelled_at := some now
                     ended_at := some now, cancellation_reason := r })
            (by simpa using hsid) hfind
          unfold cancel_subscription updateSub
          rw [hfind1]
          simp

/-- Claim C6: a gateway exception during a billing attempt is never
propagated: process_billing returns a normal (non-exceptional) result holding
a ledger row with status failure that carries the error message, and the
subscription transitions to past_due with the error recorded. -/
theorem gateway_exception_not_propagated
    (db : DB) (sid now pid : Nat) (msg : String) (sub : Subscription)
    (plan : SubscriptionPlan)
    (hfind : db.subs.find? (fun s => s.sub_id == sid) = some sub)
    (hbill : canBill sub now = true)
    (hdedup : findRecentSuccess db sub now = none)
    (hplan : db.plans.find? (fun pl => pl.plan_id == sub.plan_id) = some plan)
    (hfresh : ∀ q ∈ db.payments,
      ¬(q.subscription_id = sub.sub_id ∧ q.period_start = sub.current_period_start ∧
        q.period_end = sub.current_period_end ∧
        q.attempt_number = sub.failed_payment_count + 1)) :
    ∃ pay db',
      process_billing db sid now (.apiError msg) pid =
        .ok (pay, db', [.billed_failure sub.sub_id msg]) ∧
      pay.status = PaymentStatus.failure ∧
      pay.error_message = some msg ∧
      pay ∈ db'.payments ∧
      ∀ s ∈ db'.subs, s.sub_id = sub.sub_id →
        s.status = SubscriptionStatus.past_due ∧
        s.last_payment_error = some msg := by
  rw [process_billing_charge hfind hbill hdedup hplan,
    chargeAndRecord_eq (fresh_billingRow _ pid hfresh),
    if_neg (by simp [chargeOutcome])]
  refine ⟨_, _, rfl, rfl, rfl, ?_, ?_⟩
  · exact List.mem_append_right _ (List.mem_singleton.mpr rfl)
  · intro s hs hid
    have := mem_updateSub_eq hs (by simpa [markFailure] using hid)
    subst this
    exact ⟨rfl, rfl⟩

/-- Claim C7: the upgrade/downgrade direction guard — upgrading an active
subscription to a plan whose price is not strictly higher fails with the
validation error "must be a higher-tier plan", and downgrading to a plan
whose price is not strictly lower fails with "must be a lower-tier plan";
an error result carries no state, so the subscription is unchanged. -/
theorem upgrade_downgrade_direction_guard :
    (∀ (db : DB) (sid npid : Nat) (prorate : Bool) (now : Nat)
       (gw : GatewayOutcome) (pid : Nat) (sub : Subscription)
       (cur newp : SubscriptionPlan),
       db.subs.find? (fun s => s.sub_id == sid) = some sub →
       sub.status = SubscriptionStatus.active →
       db.plans.find? (fun pl => pl.plan_id == sub.plan_id) = some cur →
       db.plans.find? (fun pl => pl.plan_id == npid) = some newp →
       newp.price ≤ cur.price →
       upgrade_subscription db sid npid prorate now gw pid =
         .error (.validation "must be a higher-tier plan"))
    ∧
    (∀ (db : DB) (sid npid : Nat) (e : Bool) (now : Nat) (sub : Subscription)
       (cur newp : SubscriptionPlan),
       db.subs.find? (fun s => s.sub_id == sid) = some sub →
       sub.status = SubscriptionStatus.active →
       db.plans.find? (fun pl => pl.plan_id == sub.plan_id) = some cur →
       db.plans.find? (fun pl => pl.plan_id == npid) = some newp →
       cur.price ≤ newp.price →
       downgrade_subscription db sid npid e now =
         .error (.validation "must be a lower-tier plan")) := by
  constructor
  · intro db sid npid prorate now gw pid sub cur newp hfind hst hcur hnew hle
    simp [upgrade_subscription, hfind, hst, hcur, hnew, not_lt.mpr hle]
  · intro db sid npid e now sub cur newp hfind _hst hcur hnew hle
    simp [downgrade_subscription, hfind, hcur, hnew, not_lt.mpr hle]

/-- Claim C8 (amended): create_subscription on an inactive plan fails with a
validation error whose message says the plan is not available (as the
repository's test requires, containing "not available"), and on a plan whose
subscriber cap is already reached by non-terminal subscriptions it fails with
a validation error containing "capacity"; both guards fire for every gateway
outcome, before any charge, and an error result carries no state, so no
subscription is created. -/
theorem create_subscription_plan_guard :
    (∀ (db : DB) (nsid uid plan_id : Nat) (trial : Bool) (now pid : Nat)
       (plan : SubscriptionPlan),
       db.plans.find? (fun pl => pl.plan_id == plan_id) = some plan →
       plan.is_active = false →
       ∀ gw, create_subscription db nsid uid plan_id trial now gw pid =
         .error (.validation "Plan is not available for new subscriptions") ∧
         containsStr "Plan is not available for new subscriptions"
           "not available" = true)
    ∧
    (∀ (db : DB) (nsid uid plan_id : Nat) (trial : Bool) (now pid : Nat)
       (plan : SubscriptionPlan) (cap : Nat),
       db.plans.find? (fun pl => pl.plan_id == plan_id) = some plan →
       plan.is_active = true →
       plan.max_subscribers = some cap →
       cap ≤ nonTerminalCount db plan_id →
       ∀ gw, create_subscription db nsid uid plan_id trial now gw pid =
         .error (.validation "plan at capacity") ∧
         containsStr "plan at capacity" "capacity" = true) := by
  constructor
  · intro db nsid uid plan_id trial now pid plan hfind hoff gw
    refine ⟨?_, by decide⟩
    simp [create_subscription, hfind, hoff]
  · intro db nsid uid plan_id trial now pid plan cap hfind hon hcap hreach gw
    have hpid : plan.plan_id = plan_id := by simpa using List.find?_some hfind
    have hatcap : atCapacity db plan = true := by
      unfold atCapacity
      rw [hcap, hpid]
      exact decide_eq_true hreach
    refine ⟨?_, by decide⟩
    simp [create_subscription, hfind, hon, hatcap]

/-- Claim C8 (counterexample to the claim as stated): at a concrete inactive
plan, create_subscription fails with the message "Plan is not available for
new subscriptions" — which the repository's test demands (it contains
"not available") — and that message does not contain "plan unavailable",
so the claim's quoted message is not the one raised. -/
theorem create_inactive_plan_counterexample :
    create_subscription exDbInactive 5 2 1 false 0 (.success "p") 9 =
      .error (.validation "Plan is not available for new subscriptions") ∧
    containsStr "Plan is not available for new subscriptions"
      "plan unavailable" = false ∧
    containsStr "Plan is not available for new subscriptions"
      "not available" = true := by
  refine ⟨by rfl, by decide, by decide⟩

/-- Claim C10: every lifecycle transition emits exactly one corresponding
signal — create_subscription always emits one created event (whatever the
charge outcome), the charging path of process_billing emits one
billed-success event carrying the amount or one billed-failure event carrying
the error message, and cancel (of a not-yet-cancelled subscription), pause and
resume each emit their single corresponding event carrying the subscription
id. -/
theorem lifecycle_signals :
    (∀ (db : DB) (nsid uid plan_id : Nat) (trial : Bool) (now : Nat)
       (gw : GatewayOutcome) (pid : Nat) (s : Subscription) (db' : DB)
       (ev : List BEvent),
       create_subscription db nsid uid plan_id trial now gw pid = .ok (s, db', ev) →
       ev = [.created nsid])
    ∧
    (∀ (db : DB) (sid now pid : Nat) (sub : Subscription)
       (plan : SubscriptionPlan),
       db.subs.find? (fun s => s.sub_id == sid) = some sub →
       canBill sub now = true →
       findRecentSuccess db sub now = none →
       db.plans.find? (fun pl => pl.plan_id == sub.plan_id) = some plan →
       (∀ q ∈ db.payments,
         ¬(q.subscription_id = sub.sub_id ∧ q.period_start = sub.current_period_start ∧
           q.period_end = sub.current_period_end ∧
           q.attempt_number = sub.failed_payment_count + 1)) →
       (∀ prov, ∃ pay db', process_billing db sid now (.success prov) pid =
          .ok (pay, db', [.billed_success sub.sub_id plan.price])) ∧
       (∀ code m, ∃ pay db', process_billing db sid now (.failure code m) pid =
          .ok (pay, db', [.billed_failure sub.sub_id m])) ∧
       (∀ m, ∃ pay db', process_billing db sid now (.apiError m) pid =
          .ok (pay, db', [.billed_failure sub.sub_id m])))
    ∧
    (∀ (db : DB) (sid : Nat) (e : Bool) (r : Option String) (now : Nat)
       (sub : Subscription),
       db.subs.find? (fun s => s.sub_id == sid) = some sub →
       sub.status ≠ SubscriptionStatus.cancelled →
       ∃ s' db', cancel_subscription db sid e r now = .ok (s', db', [.cancelled sid]))
    ∧
    (∀ (db : DB) (sid : Nat) (sub : Subscription),
       db.subs.find? (fun s => s.sub_id == sid) = some sub →
       sub.status = SubscriptionStatus.active →
       ∃ s' db', pause_subscription db sid = .ok (s', db', [.paused sid]))
    ∧
    (∀ (db : DB) (sid : Nat) (sub : Subscription),
       db.subs.find? (fun s => s.sub_id == sid) = some sub →
       sub.status = SubscriptionStatus.paused →
       ∃ s' db', resume_subscription db sid = .ok (s', db', [.resumed sid])) := by
  refine ⟨?_, ?_, ?_, ?_, ?_⟩
  · intro db nsid uid plan_id trial now gw pid s db' ev h
    unfold create_subscription at h
    split at h
    · exact absurd h (by simp)
    · split at h
      · exact absurd h (by simp)
      · split at h
        · exact absurd h (by simp)
        · split at h
          · simp only [Except.ok.injEq, Prod.mk.injEq] at h
            exact h.2.2.symm
          · split at h
            · exact absurd h (by simp)
            · simp only [Except.ok.injEq, Prod.mk.injEq] at h
              exact h.2.2.symm
  · intro db sid now pid sub plan hfind hbill hdedup hplan hfresh
    refine ⟨?_, ?_, ?_⟩
    · intro prov
      rw [process_billing_charge hfind hbill hdedup hplan,
        chargeAndRecord_eq (fresh_billingRow _ pid hfresh),
        if_pos (show (chargeOutcome (GatewayOutcome.success prov)).status =
          PaymentStatus.success from rfl)]
      exact ⟨_, _, rfl⟩
    · intro code m
      rw [process_billing_charge hfind hbill hdedup hplan,
        chargeAndRecord_eq (fresh_billingRow _ pid hfresh),
        if_neg (by simp [chargeOutcome])]
      exact ⟨_, _, rfl⟩
    · intro m
      rw [process_billing_charge hfind hbill hdedup hplan,
        chargeAndRecord_eq (fresh_billingRow _ pid hfresh),
        if_neg (by simp [chargeOutcome])]
      exact ⟨_, _, rfl⟩
  · intro db sid e r now sub hfind hst
    cases e with
    | false =>
        have h : cancel_subscription db sid false r now =
            .ok ({ sub with
                   status := SubscriptionStatus.cancelled, cancelled_at := some now
                   ended_at := some now, cancellation_reason := r },
              updateSub db { sub with
                   status := SubscriptionStatus.cancelled, cancelled_at := some now
                   ended_at := some now, cancellation_reason := r },
              [.cancelled sid]) := by
          simp [cancel_subscription, hfind, hst]
        exact ⟨_, _, h⟩
    | true =>
        have h : cancel_subscription db sid true r now =
            .ok ({ sub with
                   cancel_at_period_end := true
                   cancelled_at := some now, cancellation_reason := r },
              updateSub db { sub with
                   cancel_at_period_end := true
                   cancelled_at := some now, cancellation_reason := r },
              [.cancelled sid]) := by
          simp [cancel_subscription, hfind, hst]
        exact ⟨_, _, h⟩
  · intro db sid sub hfind hst
    have h : pause_subscription db sid =
        .ok ({ sub with status := SubscriptionStatus.paused },
          updateSub db { sub with status := SubscriptionStatus.paused },
          [.paused sid]) := by
      simp [pause_subscription, hfind, hst]
    exact ⟨_, _, h⟩
  · intro db sid sub hfind hst
    have h : resume_subscription db sid =
        .ok ({ sub with status := SubscriptionStatus.active },
          updateSub db { sub with status := SubscriptionStatus.active },
          [.resumed sid]) := by
      simp [resume_subscription, hfind, hst]
    exact ⟨_, _, h⟩

lemma insertPayment_fresh_of_some {db : DB} {p : SubscriptionPayment} {db' : DB}
    (h : insertPayment db p = some db') :
    ∀ q ∈ db.payments, ¬ sameTuple q p := by
  unfold insertPayment at h
  split at h
  · exact absurd h (by simp)
  · rename_i hany
    intro q hq hcol
    exact hany (List.any_eq_true.mpr ⟨q, hq, decide_eq_true hcol⟩)

lemma process_billing_shape {db : DB} {sid now : Nat} {gw : GatewayOutcome}
    {pid : Nat} {pay : SubscriptionPayment} {db' : DB} {ev : List BEvent}
    (h : process_billing db sid now gw pid = .ok (pay, db', ev)) :
    db' = db ∨ ∃ u p, (∀ q ∈ db.payments, ¬ sameTuple q p) ∧
      db' = updateSub { db with payments := db.payments ++ [p] } u := by
  unfold process_billing at h
  split at h
  · exact absurd h (by simp)
  · split at h
    · split at h
      · simp only [Except.ok.injEq, Prod.mk.injEq] at h
        exact Or.inl h.2.1.symm
      · split at h
        · exact absurd h (by simp)
        · unfold chargeAndRecord at h
          split at h
          · exact absurd h (by simp)
          · rename_i db1 heq
            have hfresh := insertPayment_fresh_of_some heq
            have hdb1 := insertPayment_eq_some heq
            subst hdb1
            split at h
            · simp only [Except.ok.injEq, Prod.mk.injEq] at h
              exact Or.inr ⟨_, _, hfresh, h.2.1.symm⟩
            · simp only [Except.ok.injEq, Prod.mk.injEq] at h
              exact Or.inr ⟨_, _, hfresh, h.2.1.symm⟩
    · exact absurd h (by simp)

lemma create_subscription_shape {db : DB} {nsid uid plid : Nat} {trial : Bool}
    {now : Nat} {gw : GatewayOutcome} {pid : Nat} {s : Subscription} {db' : DB}
    {ev : List BEvent}
    (h : create_subscription db nsid uid plid trial now gw pid = .ok (s, db', ev)) :
    (∃ x, db' = { db with subs := db.subs ++ [x] }) ∨
    (∃ x p, (∀ q ∈ db.payments, ¬ sameTuple q p) ∧
       db' = { db with
               subs := db.subs ++ [x]
               payments := db.payments ++ [p] }) := by
  unfold create_subscription at h
  split at h
  · exact absurd h (by simp)
  · split at h
    · exact absurd h (by simp)
    · split at h
      · exact absurd h (by simp)
      · split at h
        · simp only [Except.ok.injEq, Prod.mk.injEq] at h
          exact Or.inl ⟨_, h.2.1.symm⟩
        · split at h
          · exact absurd h (by simp)
          · rename_i db1 heq
            have hfresh := insertPayment_fresh_of_some heq
            have hdb1 := insertPayment_eq_some heq
            subst hdb1
            simp only [Except.ok.injEq, Prod.mk.injEq] at h
            exact Or.inr ⟨_, _, hfresh, h.2.1.symm⟩

lemma cancel_subscription_shape {db : DB} {sid : Nat} {e : Bool}
    {r : Option String} {now : Nat} {s : Subscription} {db' : DB}
    {ev : List BEvent}
    (h : cancel_subscription db sid e r now = .ok (s, db', ev)) :
    db' = db ∨ ∃ u, db' = updateSub db u := by
  unfold cancel_subscription at h
  split at h
  · exact absurd h (by simp)
  · split at h
    · simp only [Except.ok.injEq, Prod.mk.injEq] at h
      exact Or.inl h.2.1.symm
    · split at h
      · simp only [Except.ok.injEq, Prod.mk.injEq] at h
        exact Or.inr ⟨_, h.2.1.symm⟩
      · simp only [Except.ok.injEq, Prod.mk.injEq] at h
        exact Or.inr ⟨_, h.2.1.symm⟩

lemma pause_subscription_shape {db : DB} {sid : Nat} {s : Subscription}
    {db' : DB} {ev : List BEvent}
    (h : pause_subscription db sid = .ok (s, db', ev)) :
    ∃ u, db' = updateSub db u := by
  unfold pause_subscription at h
  split at h
  · exact absurd h (by simp)
  · split at h
    · simp only [Except.ok.injEq, Prod.mk.injEq] at h
      exact ⟨_, h.2.1.symm⟩
    · exact absurd h (by simp)

lemma resume_subscription_shape {db : DB} {sid : Nat} {s : Subscription}
    {db' : DB} {ev : List BEvent}
    (h : resume_subscription db sid = .ok (s, db', ev)) :
    ∃ u, db' = updateSub db u := by
  unfold resume_subscription at h
  split at h
  · exact absurd h (by simp)
  · split at h
    · simp only [Except.ok.injEq, Prod.mk.injEq] at h
      exact ⟨_, h.2.1.symm⟩
    · exact absurd h (by simp)

lemma upgrade_subscription_shape {db : DB} {sid npid : Nat} {prorate : Bool}
    {now : Nat} {gw : GatewayOutcome} {pid : Nat} {s : Subscription} {db' : DB}
    {ev : List BEvent}
    (h : upgrade_subscription db sid npid prorate now gw pid = .ok (s, db', ev)) :
    (∃ u, db' = updateSub db u) ∨
    (∃ u p, (∀ q ∈ db.payments, ¬ sameTuple q p) ∧
       db' = updateSub { db with payments := db.payments ++ [p] } u) := by
  unfold upgrade_subscription at h
  split at h
  · exact absurd h (by simp)
  · split at h
    · split at h
      · split at h
        · split at h
          · split at h
            · exact absurd h (by simp)
            · rename_i db1 heq
              have hfresh := insertPayment_fresh_of_some heq
              have hdb1 := insertPayment_eq_some heq
              subst hdb1
              simp only [Except.ok.injEq, Prod.mk.injEq] at h
              exact Or.inr ⟨_, _, hfresh, h.2.1.symm⟩
          · simp only [Except.ok.injEq, Prod.mk.injEq] at h
            exact Or.inl ⟨_, h.2.1.symm⟩
        · exact absurd h (by simp)
      · exact absurd h (by simp)
    · exact absurd h (by simp)

lemma downgrade_subscription_shape {db : DB} {sid npid : Nat} {e : Bool}
    {now : Nat} {s : Subscription} {db' : DB} {ev : List BEvent}
    (h : downgrade_subscription db sid npid e now = .ok (s, db', ev)) :
    ∃ u, db' = updateSub db u := by
  unfold downgrade_subscription at h
  split at h
  · exact absurd h (by simp)
  · split at h
    · split at h
      · split at h
        · simp only [Except.ok.injEq, Prod.mk.injEq] at h
          exact ⟨_, h.2.1.symm⟩
        · simp only [Except.ok.injEq, Prod.mk.injEq] at h
          exact ⟨_, h.2.1.symm⟩
      · exact absurd h (by simp)
    · exact absurd h (by simp)

lemma deletePlan_fields {db : DB} {pid : Nat} {db' : DB}
    (h : deletePlan db pid = some db') :
    db'.payments = db.payments ∧ db'.subs = db.subs := by
  unfold deletePlan at h
  split at h
  · exact absurd h (by simp)
  · obtain rfl : db' = _ := by simpa using h.symm
    exact ⟨rfl, rfl⟩

lemma paymentsUnique_append {l : List SubscriptionPayment}
    {p : SubscriptionPayment} (hu : PaymentsUnique l)
    (hf : ∀ q ∈ l, ¬ sameTuple q p) : PaymentsUnique (l ++ [p]) := by
  unfold PaymentsUnique at hu ⊢
  rw [List.pairwise_append]
  refine ⟨hu, List.pairwise_singleton _ _, ?_⟩
  intro a ha b hb
  rw [List.mem_singleton] at hb
  subst hb
  exact hf a ha

lemma lifecycleStep_preserves_unique {a b : DB} (hl : LifecycleStep a b)
    (hu : PaymentsUnique a.payments) : PaymentsUnique b.payments := by
  cases hl with
  | create x1 x2 x3 t n g i s _ ev h =>
      rcases create_subscription_shape h with ⟨x, rfl⟩ | ⟨x, p, hf, rfl⟩
      · exact hu
      · exact paymentsUnique_append hu hf
  | bill x n g i p _ ev h =>
      rcases process_billing_shape h with rfl | ⟨u, q, hf, rfl⟩
      · exact hu
      · exact paymentsUnique_append hu hf
  | cancel x e r n s _ ev h =>
      rcases cancel_subscription_shape h with rfl | ⟨u, rfl⟩
      · exact hu
      · exact hu
  | pause x s _ ev h =>
      rcases pause_subscription_shape h with ⟨u, rfl⟩
      exact hu
  | resume x s _ ev h =>
      rcases resume_subscription_shape h with ⟨u, rfl⟩
      exact hu
  | upgrade x y pr n g i s _ ev h =>
      rcases upgrade_subscription_shape h with ⟨u, rfl⟩ | ⟨u, q, hf, rfl⟩
      · exact hu
      · exact paymentsUnique_append hu hf
  | downgrade x y e n s _ ev h =>
      rcases downgrade_subscription_shape h with ⟨u, rfl⟩
      exact hu

lemma systemStep_preserves_unique {a b : DB} (hstep : SystemStep a b)
    (hu : PaymentsUnique a.payments) : PaymentsUnique b.payments := by
  cases hstep with
  | lifecycle _ hl => exact lifecycleStep_preserves_unique hl hu
  | delUser uid => exact List.Pairwise.sublist (List.filter_sublist _) hu
  | delPlan pid _ h =>
      rw [(deletePlan_fields h).1]
      exact hu

/-- Claim C2: the tuple (subscription, period_start, period_end,
attempt_number) is unique across ledger rows — the schema constraint
unique_subscription_payment_period (migration 0002, in src/) rejects any
insert that collides with an existing row, independent of application checks,
and every sequence of system operations (all seven orchestrator operations
and deletions of related entities) preserves pairwise distinctness of the
tuples. -/
theorem ledger_tuple_unique :
    (∀ (db : DB) (p : SubscriptionPayment),
       (∃ q ∈ db.payments, sameTuple q p) → insertPayment db p = none)
    ∧
    (∀ (db db' : DB), Relation.ReflTransGen SystemStep db db' →
       PaymentsUnique db.payments → PaymentsUnique db'.payments) := by
  constructor
  · intro db p ⟨q, hq, hqt⟩
    unfold insertPayment
    rw [if_pos (List.any_eq_true.mpr ⟨q, hq, decide_eq_true hqt⟩)]
  · intro db db' h hu
    induction h with
    | refl => exact hu
    | tail _ hstep ih => exact systemStep_preserves_unique hstep ih

lemma subsPreserved_updateSub {db X : DB} (u : Subscription)
    (hsubs : X.subs = db.subs) :
    ∀ s ∈ db.subs, ∃ s' ∈ (updateSub X u).subs, s'.sub_id = s.sub_id := by
  intro s hs
  refine ⟨if s.sub_id == u.sub_id then u else s, ?_, ?_⟩
  · unfold updateSub
    rw [hsubs]
    exact List.mem_map_of_mem _ hs
  · by_cases h : s.sub_id == u.sub_id
    · simp only [if_pos h]
      exact (beq_iff_eq.mp h).symm
    · simp only [if_neg h]

lemma lifecycleStep_preserves_subs {a b : DB} (hl : LifecycleStep a b) :
    ∀ s ∈ a.subs, ∃ s' ∈ b.subs, s'.sub_id = s.sub_id := by
  cases hl with
  | create x1 x2 x3 t n g i s _ ev h =>
      rcases create_subscription_shape h with ⟨x, rfl⟩ | ⟨x, p, hf, rfl⟩
      · exact fun s hs => ⟨s, List.mem_append_left _ hs, rfl⟩
      · exact fun s hs => ⟨s, List.mem_append_left _ hs, rfl⟩
  | bill x n g i p _ ev h =>
      rcases process_billing_shape h with rfl | ⟨u, q, hf, rfl⟩
      · exact fun s hs => ⟨s, hs, rfl⟩
      · exact subsPreserved_updateSub u rfl
  | cancel x e r n s _ ev h =>
      rcases cancel_subscription_shape h with rfl | ⟨u, rfl⟩
      · exact fun s hs => ⟨s, hs, rfl⟩
      · exact subsPreserved_updateSub u rfl
  | pause x s _ ev h =>
      rcases pause_subscription_shape h with ⟨u, rfl⟩
      exact subsPreserved_updateSub u rfl
  | resume x s _ ev h =>
      rcases resume_subscription_shape h with ⟨u, rfl⟩
      exact subsPreserved_updateSub u rfl
  | upgrade x y pr n g i s _ ev h =>
      rcases upgrade_subscription_shape h with ⟨u, rfl⟩ | ⟨u, q, hf, rfl⟩
      · exact subsPreserved_updateSub u rfl
      · exact subsPreserved_updateSub u rfl
  | downgrade x y e n s _ ev h =>
      rcases downgrade_subscription_shape h with ⟨u, rfl⟩
      exact subsPreserved_updateSub u rfl

/-- Claim C9 (amended): no orchestrator lifecycle operation ever removes a
subscription record (over every sequence of lifecycle steps, every
subscription id survives), and a plan referenced by a subscription cannot be
deleted (on_delete=PROTECT); however — against the claim as stated — deleting
the owning user cascade-deletes the user's subscriptions, as declared by
on_delete=CASCADE in migration 0001. -/
theorem subscriptions_never_hard_deleted :
    (∀ (db db' : DB), Relation.ReflTransGen LifecycleStep db db' →
       ∀ s ∈ db.subs, ∃ s' ∈ db'.subs, s'.sub_id = s.sub_id)
    ∧
    (∀ (db : DB) (pid : Nat), (∃ s ∈ db.subs, s.plan_id = pid) →
       deletePlan db pid = none)
    ∧
    (∀ (db : DB) (uid : Nat),
       (deleteUser db uid).subs = db.subs.filter (fun s => !(s.user_id == uid))) := by
  refine ⟨?_, ?_, ?_⟩
  · intro db db' h
    induction h with
    | refl => exact fun s hs => ⟨s, hs, rfl⟩
    | tail _ hstep ih =>
        intro s hs
        obtain ⟨s1, hs1, hid1⟩ := ih s hs
        obtain ⟨s2, hs2, hid2⟩ := lifecycleStep_preserves_subs hstep s1 hs1
        exact ⟨s2, hs2, hid2.trans hid1⟩
  · intro db pid ⟨s, hs, hpid⟩
    unfold deletePlan
    rw [if_pos (List.any_eq_true.mpr ⟨s, hs, by simpa using hpid⟩)]
  · intro db uid
    rfl

/-- Claim C9 (counterexample to the claim as stated): a concrete store holds
a subscription in the terminal state cancelled; deleting its owning user — a
deletion of a related entity, with the CASCADE semantics declared in
migration 0001 (in src/) — removes the subscription record and its ledger
rows, so terminal subscriptions are not retained under every deletion of
related entities. -/
theorem cascade_delete_counterexample :
    exSubCancelled ∈ exDbCancelled.subs ∧
    exSubCancelled.status = SubscriptionStatus.cancelled ∧
    (deleteUser exDbCancelled 1).subs = [] ∧
    (deleteUser exDbCancelled 1).payments = [] := by
  exact ⟨List.mem_singleton.mpr rfl, rfl, rfl, rfl⟩

lemma process_billing_ok_inv {db : DB} {sid now : Nat} {gw : GatewayOutcome}
    {pid : Nat} {pay : SubscriptionPayment} {db' : DB} {ev : List BEvent}
    (h : process_billing db sid now gw pid = .ok (pay, db', ev)) :
    db' = db ∨
    (∃ sub plan,
       db.subs.find? (fun s => s.sub_id == sid) = some sub ∧
       db.plans.find? (fun pl => pl.plan_id == sub.plan_id) = some plan ∧
       pay = billingRow sub plan now gw pid ∧
       (((chargeOutcome gw).status = PaymentStatus.success ∧
         db' = updateSub { db with payments := db.payments ++ [pay] }
           (advanceOnSuccess sub plan now)) ∨
        (¬ (chargeOutcome gw).status = PaymentStatus.success ∧
         db' = updateSub { db with payments := db.payments ++ [pay] }
           (markFailure sub (chargeOutcome gw).error_message now)))) := by
  unfold process_billing at h
  split at h
  · exact absurd h (by simp)
  · rename_i sub hfind
    split at h
    · split at h
      · simp only [Except.ok.injEq, Prod.mk.injEq] at h
        exact Or.inl h.2.1.symm
      · split at h
        · exact absurd h (by simp)
        · rename_i plan hplan
          unfold chargeAndRecord at h
          split at h
          · exact absurd h (by simp)
          · rename_i db1 heq
            have hdb1 := insertPayment_eq_some heq
            subst hdb1
            split at h
            · rename_i hst
              simp only [Except.ok.injEq, Prod.mk.injEq] at h
              refine Or.inr ⟨sub, plan, hfind, hplan, h.1.symm, Or.inl ⟨hst, ?_⟩⟩
              rw [← h.1]
              exact h.2.1.symm
            · rename_i hst
              simp only [Except.ok.injEq, Prod.mk.injEq] at h
              refine Or.inr ⟨sub, plan, hfind, hplan, h.1.symm, Or.inr ⟨hst, ?_⟩⟩
              rw [← h.1]
              exact h.2.1.symm
    · exact absurd h (by simp)

lemma successCount_updateSub (db : DB) (u : Subscription) (sid ps pe : Nat) :
    successCount (updateSub db u) sid ps pe = successCount db sid ps pe := rfl

lemma successCount_append (db : DB) (row : SubscriptionPayment)
    (sid ps pe : Nat) :
    successCount { db with payments := db.payments ++ [row] } sid ps pe =
      successCount db sid ps pe +
        (if row.subscription_id = sid ∧ row.status = PaymentStatus.success ∧
            row.period_start = ps ∧ row.period_end = pe
         then 1 else 0) := by
  unfold successCount
  rw [List.filter_append, List.length_append]
  congr 1
  by_cases hc : row.subscription_id = sid ∧ row.status = PaymentStatus.success ∧
      row.period_start = ps ∧ row.period_end = pe
  · obtain ⟨h1, h2, h3, h4⟩ := hc
    simp [List.filter, h1, h2, h3, h4]
  · have hb : (row.subscription_id == sid && row.status == PaymentStatus.success &&
        row.period_start == ps && row.period_end == pe) = false := by
      rw [Bool.eq_false_iff]
      intro hbt
      apply hc
      simpa [Bool.and_eq_true, beq_iff_eq, and_assoc] using hbt
    simp [List.filter, hb, hc]

lemma billing_step_inv {db : DB} {sid now : Nat} {gw : GatewayOutcome}
    {pid : Nat} {pay : SubscriptionPayment} {db' : DB} {ev : List BEvent}
    {ps pe : Nat}
    (hwf : PlansWF db)
    (h : process_billing db sid now gw pid = .ok (pay, db', ev))
    (hc : successCount db sid ps pe ≤ 1)
    (him : successCount db sid ps pe = 1 →
       ∀ s ∈ db.subs, s.sub_id = sid → pe < s.current_period_end) :
    db'.plans = db.plans ∧
    successCount db' sid ps pe ≤ 1 ∧
    (successCount db' sid ps pe = 1 →
       ∀ s ∈ db'.subs, s.sub_id = sid → pe < s.current_period_end) := by
  rcases process_billing_ok_inv h with rfl | ⟨sub, plan, hfind, hplan, hpay, hcase⟩
  · exact ⟨rfl, hc, him⟩
  · have hsubid : sub.sub_id = sid := by simpa using List.find?_some hfind
    have hsubmem : sub ∈ db.subs := List.mem_of_find?_eq_some hfind
    have hplanmem : plan ∈ db.plans := List.mem_of_find?_eq_some hplan
    have hlen : 0 < intervalSeconds plan := by
      unfold intervalSeconds
      have h1 : 1 ≤ plan.billing_interval_count := hwf plan hplanmem
      have h2 : 0 < intervalDays plan.billing_interval := by
        cases plan.billing_interval <;> simp [intervalDays]
      have := Nat.mul_pos h2 h1
      omega
    subst hpay
    rcases hcase with ⟨hst, rfl⟩ | ⟨hst, rfl⟩
    · -- successful charge: the new row is a success row for the current period
      rw [successCount_updateSub, successCount_append]
      have hfields : (billingRow sub plan now gw pid).subscription_id = sub.sub_id ∧
          (billingRow sub plan now gw pid).status = (chargeOutcome gw).status ∧
          (billingRow sub plan now gw pid).period_start = sub.current_period_start ∧
          (billingRow sub plan now gw pid).period_end = sub.current_period_end :=
        ⟨rfl, rfl, rfl, rfl⟩
      by_cases hmatch : sub.current_period_start = ps ∧ sub.current_period_end = pe
      · rw [if_pos (by
          rw [hfields.1, hfields.2.1, hfields.2.2.1, hfields.2.2.2]
          exact ⟨hsubid, hst, hmatch.1, hmatch.2⟩)]
        have hc0 : successCount db sid ps pe = 0 := by
          by_contra hne
          have h1 : successCount db sid ps pe = 1 := by omega
          have := him h1 sub hsubmem hsubid
          omega
        rw [hc0]
        refine ⟨rfl, by omega, ?_⟩
        intro _ s hs hid
        have hsu : s = advanceOnSuccess sub plan now := mem_updateSub_eq hs
          (by simpa [advanceOnSuccess] using hid.trans hsubid.symm)
        subst hsu
        show pe < sub.current_period_end + intervalSeconds plan
        omega
      · rw [if_neg (by
          rw [hfields.1, hfields.2.1, hfields.2.2.1, hfields.2.2.2]
          intro hcontra
          exact hmatch ⟨hcontra.2.2.1, hcontra.2.2.2⟩)]
        refine ⟨rfl, by omega, ?_⟩
        intro hcnt s hs hid
        have h1 : successCount db sid ps pe = 1 := by omega
        have hlt := him h1 sub hsubmem hsubid
        have hsu : s = advanceOnSuccess sub plan now := mem_updateSub_eq hs
          (by simpa [advanceOnSuccess] using hid.trans hsubid.symm)
        subst hsu
        show pe < sub.current_period_end + intervalSeconds plan
        omega
    · -- failed charge: the new row is not a success row
      rw [successCount_updateSub, successCount_append]
      rw [if_neg (by
        intro hcontra
        exact hst (by
          have : (billingRow sub plan now gw pid).status = (chargeOutcome gw).status := rfl
          rw [← this]
          exact hcontra.2.1))]
      refine ⟨rfl, by omega, ?_⟩
      intro hcnt s hs hid
      have h1 : successCount db sid ps pe = 1 := by omega
      have hlt := him h1 sub hsubmem hsubid
      have hsu : s = markFailure sub (chargeOutcome gw).error_message now :=
        mem_updateSub_eq hs (by simpa [markFailure] using hid.trans hsubid.symm)
      subst hsu
      show pe < sub.current_period_end
      omega

lemma runBilling_inv {sid ps pe : Nat}
    (calls : List (Nat × GatewayOutcome × Nat)) :
    ∀ (db : DB), PlansWF db →
      successCount db sid ps pe ≤ 1 →
      (successCount db sid ps pe = 1 →
        ∀ s ∈ db.subs, s.sub_id = sid → pe < s.current_period_end) →
      successCount (runBilling db sid calls) sid ps pe ≤ 1 := by
  induction calls with
  | nil => intro db _ hc _; simpa [runBilling] using hc
  | cons c rest ih =>
      intro db hwf hc him
      obtain ⟨now, gw, pid⟩ := c
      cases hres : process_billing db sid now gw pid with
      | error e =>
          simp only [runBilling, hres]
          exact ih db hwf hc him
      | ok res =>
          obtain ⟨pay, db', ev⟩ := res
          simp only [runBilling, hres]
          obtain ⟨hplans, hc', him'⟩ := billing_step_inv hwf hres hc him
          have hwf' : PlansWF db' := fun pl hpl => hwf pl (hplans ▸ hpl)
          exact ih db' hwf' hc' him'

/-- Claim C1: the double-billing guard — when a successful ledger row for the
subscription's current period created within the last hour exists,
process_billing returns that row unchanged with the state untouched, no new
ledger row and no event, for every gateway outcome (so no charge is
performed); and over every sequence of repeated process_billing invocations
on one subscription for one period that starts uncharged, at most one ledger
row for that period ever reaches status success, so the subscription is
successfully charged at most once for it. -/
theorem no_double_billing :
    (∀ (db : DB) (sid now : Nat) (sub : Subscription) (p : SubscriptionPayment),
       db.subs.find? (fun s => s.sub_id == sid) = some sub →
       canBill sub now = true →
       findRecentSuccess db sub now = some p →
       ∀ (gw : GatewayOutcome) (pid : Nat),
         process_billing db sid now gw pid = .ok (p, db, []))
    ∧
    (∀ (db : DB) (sid ps pe : Nat)
       (calls : List (Nat × GatewayOutcome × Nat)),
       PlansWF db →
       successCount db sid ps pe = 0 →
       successCount (runBilling db sid calls) sid ps pe ≤ 1) := by
  constructor
  · intro db sid now sub p hfind hbill hdedup gw pid
    simp [process_billing, hfind, hbill, hdedup]
  · intro db sid ps pe calls hwf hc0
    exact runBilling_inv calls db hwf (by omega) (by omega)

lemma c4SubAfter_succ (k : Nat) : c4SubAfter (k + 1) =
    { c4Sub with
      failed_payment_count := k + 1
      status := .past_due
      last_payment_error := some "declined"
      last_payment_attempt := some 0 } := by
  induction k with
  | zero => rfl
  | succ n ih =>
      show markFailure (c4SubAfter (n + 1)) (some "declined") 0 = _
      rw [ih]
      rfl

lemma c4SubAfter_fields (k : Nat) :
    (c4SubAfter k).sub_id = 1 ∧ (c4SubAfter k).plan_id = 1 ∧
    (c4SubAfter k).current_period_start = 0 ∧
    (c4SubAfter k).current_period_end = 2592000 ∧
    (c4SubAfter k).failed_payment_count = k ∧
    canBill (c4SubAfter k) 0 = true := by
  cases k with
  | zero => exact ⟨rfl, rfl, rfl, rfl, rfl, rfl⟩
  | succ n => rw [c4SubAfter_succ]; exact ⟨rfl, rfl, rfl, rfl, rfl, rfl⟩

lemma c4FailRow_attempt (i : Nat) : (c4FailRow i).attempt_number = i + 1 := by
  show (c4SubAfter i).failed_payment_count + 1 = i + 1
  rw [(c4SubAfter_fields i).2.2.2.2.1]

lemma c4_find (k : Nat) :
    (c4DbAfter k).subs.find? (fun s => s.sub_id == 1) = some (c4SubAfter k) := by
  show List.find? _ [c4SubAfter k] = _
  rw [List.find?_cons_of_pos _ (by simp [(c4SubAfter_fields k).1])]

lemma c4_dedup (k : Nat) :
    findRecentSuccess (c4DbAfter k) (c4SubAfter k) 0 = none := by
  unfold findRecentSuccess
  apply List.find?_eq_none.mpr
  intro x hx
  rcases List.mem_map.mp hx with ⟨i, _, rfl⟩
  have hst : ((c4FailRow i).status == PaymentStatus.success) = false := rfl
  simp [hst]

lemma c4_plan (k : Nat) :
    (c4DbAfter k).plans.find? (fun pl => pl.plan_id == (c4SubAfter k).plan_id) =
      some c4Plan := by
  show List.find? _ [c4Plan] = _
  rw [List.find?_cons_of_pos _ (by simp [c4Plan, (c4SubAfter_fields k).2.1])]

lemma c4_fresh (k : Nat) (gw : GatewayOutcome) :
    ∀ q ∈ (c4DbAfter k).payments,
      ¬ sameTuple q (billingRow (c4SubAfter k) c4Plan 0 gw k) := by
  intro q hq hcol
  rcases List.mem_map.mp hq with ⟨i, hi, rfl⟩
  have hik : i < k := List.mem_range.mp hi
  have h1 : (c4FailRow i).attempt_number = i + 1 := c4FailRow_attempt i
  have h2 : (billingRow (c4SubAfter k) c4Plan 0 gw k).attempt_number = k + 1 := by
    show (c4SubAfter k).failed_payment_count + 1 = k + 1
    rw [(c4SubAfter_fields k).2.2.2.2.1]
  have := hcol.2.2.2
  omega

lemma c4_fail_step (k : Nat) :
    process_billing (c4DbAfter k) 1 0
        (GatewayOutcome.failure "code" "declined") k =
      .ok (c4FailRow k, c4DbAfter (k + 1), [.billed_failure 1 "declined"]) := by
  rw [process_billing_charge (c4_find k) (c4SubAfter_fields k).2.2.2.2.2
      (c4_dedup k) (c4_plan k),
    chargeAndRecord_eq (c4_fresh k _),
    if_neg (by simp [chargeOutcome])]
  simp only [Except.ok.injEq, Prod.mk.injEq]
  refine ⟨rfl, ?_, ?_⟩
  · show updateSub _ (markFailure (c4SubAfter k) (some "declined") 0) = _
    unfold updateSub c4DbAfter
    simp only [DB.mk.injEq, true_and]
    refine ⟨?_, ?_⟩
    · show [c4SubAfter k].map _ = [c4SubAfter (k + 1)]
      have hid : ((c4SubAfter k).sub_id ==
          (markFailure (c4SubAfter k) (some "declined") 0).sub_id) = true := by
        simp [markFailure]
      simp only [List.map_cons, List.map_nil, hid, if_pos]
      rfl
    · rw [List.range_succ, List.map_append]
      rfl
  · rw [(c4SubAfter_fields k).1]
    rfl

lemma c4_success_step (n : Nat) :
    process_billing (c4DbAfter n) 1 0 (GatewayOutcome.success "prov") n =
      .ok (c4SuccessRow n, c4Final n, [.billed_success 1 9999]) := by
  rw [process_billing_charge (c4_find n) (c4SubAfter_fields n).2.2.2.2.2
      (c4_dedup n) (c4_plan n),
    chargeAndRecord_eq (c4_fresh n _),
    if_pos (show (chargeOutcome (GatewayOutcome.success "prov")).status =
      PaymentStatus.success from rfl)]
  simp only [Except.ok.injEq, Prod.mk.injEq]
  refine ⟨rfl, ?_, ?_⟩
  · show updateSub _ (advanceOnSuccess (c4SubAfter n) c4Plan 0) = _
    unfold updateSub c4Final c4DbAfter
    simp only [DB.mk.injEq, true_and]
    refine ⟨?_, ?_⟩
    case refine_2 => rfl
    show [c4SubAfter n].map _ = [advanceOnSuccess (c4SubAfter n) c4Plan 0]
    have hid : ((c4SubAfter n).sub_id ==
        (advanceOnSuccess (c4SubAfter n) c4Plan 0).sub_id) = true := by
      simp [advanceOnSuccess]
    simp only [List.map_cons, List.map_nil, hid, if_pos]
  · rw [(c4SubAfter_fields n).1]
    rfl

lemma runBilling_append (db : DB) (sid : Nat)
    (l1 l2 : List (Nat × GatewayOutcome × Nat)) :
    runBilling db sid (l1 ++ l2) = runBilling (runBilling db sid l1) sid l2 := by
  induction l1 generalizing db with
  | nil => rfl
  | cons c rest ih =>
      obtain ⟨now, gw, pid⟩ := c
      show runBilling db sid ((now, gw, pid) :: (rest ++ l2)) = _
      cases hres : process_billing db sid now gw pid with
      | error e =>
          simp only [runBilling, hres]
          exact ih _
      | ok res =>
          obtain ⟨pay, db', ev⟩ := res
          simp only [runBilling, hres]
          exact ih _

lemma c4_fail_run (n : Nat) : ∀ k : Nat,
    runBilling (c4DbAfter k) 1
      ((List.range' k n).map
        (fun i => (0, GatewayOutcome.failure "code" "declined", i))) =
      c4DbAfter (k + n) := by
  induction n with
  | zero => intro k; rfl
  | succ m ih =>
      intro k
      show runBilling (c4DbAfter k) 1
        ((0, GatewayOutcome.failure "code" "declined", k) ::
          (List.range' (k + 1) m).map
            (fun i => (0, GatewayOutcome.failure "code" "declined", i))) = _
      rw [show runBilling (c4DbAfter k) 1 _ = runBilling (c4DbAfter (k + 1)) 1
          ((List.range' (k + 1) m).map
            (fun i => (0, GatewayOutcome.failure "code" "declined", i))) from by
        simp only [runBilling, c4_fail_step k]]
      rw [ih (k + 1)]
      congr 1
      omega

lemma c4_run (n : Nat) :
    runBilling (c4DbAfter 0) 1 (c4Calls n) = c4Final n := by
  unfold c4Calls
  rw [runBilling_append]
  rw [show (List.range n).map
      (fun i => (0, GatewayOutcome.failure "code" "declined", i)) =
    (List.range' 0 n).map
      (fun i => (0, GatewayOutcome.failure "code" "declined", i)) from by
    rw [List.range_eq_range']]
  rw [c4_fail_run n 0, Nat.zero_add]
  show runBilling (c4DbAfter n) 1 [(0, GatewayOutcome.success "prov", n)] = _
  simp only [runBilling, c4_success_step n]

lemma c4SuccessRow_attempt (n : Nat) :
    (c4SuccessRow n).attempt_number = n + 1 := by
  show (c4SubAfter n).failed_payment_count + 1 = n + 1
  rw [(c4SubAfter_fields n).2.2.2.2.1]

/-- Claim C4: attempt numbering — on the charging path the created ledger row
has attempt_number = failed_payment_count + 1 and is_retry exactly when
failed_payment_count > 0, for every gateway outcome; and a subscription that
fails n times and then succeeds ends with ledger rows whose attempt numbers
are exactly 1..n+1, all for the same period, each unique, the last one
successful and the others failed. -/
theorem attempt_numbering :
    (∀ (db : DB) (sid now pid : Nat) (sub : Subscription)
       (plan : SubscriptionPlan),
       db.subs.find? (fun s => s.sub_id == sid) = some sub →
       canBill sub now = true →
       findRecentSuccess db sub now = none →
       db.plans.find? (fun pl => pl.plan_id == sub.plan_id) = some plan →
       (∀ q ∈ db.payments,
         ¬(q.subscription_id = sub.sub_id ∧ q.period_start = sub.current_period_start ∧
           q.period_end = sub.current_period_end ∧
           q.attempt_number = sub.failed_payment_count + 1)) →
       ∀ gw, ∃ pay db' ev,
         process_billing db sid now gw pid = .ok (pay, db', ev) ∧
         pay.attempt_number = sub.failed_payment_count + 1 ∧
         pay.is_retry = decide (0 < sub.failed_payment_count) ∧
         pay.period_start = sub.current_period_start ∧
         pay.period_end = sub.current_period_end)
    ∧
    (∀ n : Nat,
       ((runBilling (c4DbAfter 0) 1 (c4Calls n)).payments.map
          (fun p => p.attempt_number)) = List.range' 1 (n + 1) ∧
       (∀ p ∈ (runBilling (c4DbAfter 0) 1 (c4Calls n)).payments,
          p.subscription_id = 1 ∧ p.period_start = 0 ∧ p.period_end = 2592000) ∧
       (∀ p ∈ (runBilling (c4DbAfter 0) 1 (c4Calls n)).payments,
          (p.attempt_number = n + 1 ↔ p.status = PaymentStatus.success)) ∧
       ((runBilling (c4DbAfter 0) 1 (c4Calls n)).payments.map
          (fun p => p.attempt_number)).Nodup) := by
  constructor
  · intro db sid now pid sub plan hfind hbill hdedup hplan hfresh gw
    rw [process_billing_charge hfind hbill hdedup hplan,
      chargeAndRecord_eq (fresh_billingRow gw pid hfresh)]
    by_cases hst : (chargeOutcome gw).status = PaymentStatus.success
    · rw [if_pos hst]
      exact ⟨_, _, _, rfl, rfl, rfl, rfl, rfl⟩
    · rw [if_neg hst]
      exact ⟨_, _, _, rfl, rfl, rfl, rfl, rfl⟩
  · intro n
    rw [c4_run n]
    have hmap : ((runBilling (c4DbAfter 0) 1 (c4Calls n)).payments.map
        (fun p => p.attempt_number)) = List.range' 1 (n + 1) := by
      rw [c4_run n]
      show ((List.range n).map c4FailRow ++ [c4SuccessRow n]).map
        (fun p => p.attempt_number) = _
      rw [List.map_append, List.map_map]
      simp only [List.map_cons, List.map_nil]
      rw [List.map_congr_left (fun i _ => by
        show (c4FailRow i).attempt_number = 1 + i
        rw [c4FailRow_attempt i, Nat.add_comm])]
      rw [show (c4SuccessRow n).attempt_number = 1 + 1 * n from by
        rw [c4SuccessRow_attempt n, Nat.one_mul, Nat.add_comm]]
      rw [List.range'_concat, List.range'_eq_map_range]
    rw [c4_run n] at hmap
    refine ⟨hmap, ?_, ?_, ?_⟩
    · intro p hp
      rcases List.mem_append.mp hp with hp | hp
      · rcases List.mem_map.mp hp with ⟨i, _, rfl⟩
        refine ⟨?_, ?_, ?_⟩
        · show (c4SubAfter i).sub_id = 1
          exact (c4SubAfter_fields i).1
        · show (c4SubAfter i).current_period_start = 0
          exact (c4SubAfter_fields i).2.2.1
        · show (c4SubAfter i).current_period_end = 2592000
          exact (c4SubAfter_fields i).2.2.2.1
      · rw [List.mem_singleton.mp hp]
        refine ⟨?_, ?_, ?_⟩
        · show (c4SubAfter n).sub_id = 1
          exact (c4SubAfter_fields n).1
        · show (c4SubAfter n).current_period_start = 0
          exact (c4SubAfter_fields n).2.2.1
        · show (c4SubAfter n).current_period_end = 2592000
          exact (c4SubAfter_fields n).2.2.2.1
    · intro p hp
      rcases List.mem_append.mp hp with hp | hp
      · rcases List.mem_map.mp hp with ⟨i, hi, rfl⟩
        have hik : i < n := List.mem_range.mp hi
        have ha := c4FailRow_attempt i
        have hs : (c4FailRow i).status = PaymentStatus.failure := rfl
        constructor
        · intro hcontra
          omega
        · intro hcontra
          rw [hs] at hcontra
          exact absurd hcontra (by simp)
      · rw [List.mem_singleton.mp hp]
        have ha := c4SuccessRow_attempt n
        have hs : (c4SuccessRow n).status = PaymentStatus.success := rfl
        exact ⟨fun _ => hs, fun _ => ha⟩
    · rw [hmap]
      exact List.nodup_range' 1 (n + 1)

/-- Witness for claim C1 at concrete inputs: the dedup short-circuit on
exDbDedup, and the at-most-one-success bound over a fail/success/success call
sequence. -/
theorem no_double_billing_witness :
    process_billing exDbDedup 1 2000 (GatewayOutcome.failure "c" "x") 50 =
      .ok (exPayRecent, exDbDedup, []) ∧
    successCount (runBilling (c4DbAfter 0) 1
      [(0, GatewayOutcome.failure "c" "m", 0), (0, GatewayOutcome.success "p", 1),
       (0, GatewayOutcome.success "q", 2)]) 1 0 2592000 ≤ 1 := by
  constructor
  · exact no_double_billing.1 exDbDedup 1 2000 c4Sub exPayRecent (by decide)
      (by decide) (by decide) (GatewayOutcome.failure "c" "x") 50
  · exact no_double_billing.2 (c4DbAfter 0) 1 0 2592000 _
      (by unfold PlansWF; decide) (by decide)

/-- Witness for claim C2 at concrete inputs: a colliding insert is rejected,
and uniqueness survives a concrete lifecycle step. -/
theorem ledger_tuple_unique_witness :
    insertPayment exDbDedup exPayRecent = none ∧
    PaymentsUnique exDbPaused.payments := by
  constructor
  · exact ledger_tuple_unique.1 exDbDedup exPayRecent
      ⟨exPayRecent, by decide, by decide⟩
  · exact ledger_tuple_unique.2 (c4DbAfter 0) exDbPaused
      (Relation.ReflTransGen.single (SystemStep.lifecycle _ _
        (LifecycleStep.pause (c4DbAfter 0) 1 exPausedSub exDbPaused
          [BEvent.paused 1] (by rfl))))
      List.Pairwise.nil

/-- Witness for claim C3 at concrete inputs. -/
theorem process_billing_outcome_transitions_witness :
    (∃ pay db' ev,
       process_billing (c4DbAfter 0) 1 0 (.success "p") 42 = .ok (pay, db', ev) ∧
       ∀ s ∈ db'.subs, s.sub_id = c4Sub.sub_id →
         s.failed_payment_count = 0 ∧ s.status = SubscriptionStatus.active) ∧
    (∃ pay db' ev,
       process_billing (c4DbAfter 0) 1 0 (.failure "c" "m") 42 = .ok (pay, db', ev) ∧
       ∀ s ∈ db'.subs, s.sub_id = c4Sub.sub_id →
         s.failed_payment_count = c4Sub.failed_payment_count + 1 ∧
         s.last_payment_error = some "m" ∧
         s.status = SubscriptionStatus.past_due) := by
  have h := process_billing_outcome_transitions (c4DbAfter 0) 1 0 42 c4Sub c4Plan
    (by decide) (by decide) (by decide) (by decide) (by decide)
  exact ⟨h.1 "p", h.2 "c" "m"⟩

/-- Witness for claim C4 at concrete inputs: the attempt fields of one charge,
and the attempt ladder after two failures and a success. -/
theorem attempt_numbering_witness :
    (∃ pay db' ev,
       process_billing (c4DbAfter 0) 1 0 (GatewayOutcome.failure "c" "m") 42 =
         .ok (pay, db', ev) ∧
       pay.attempt_number = c4Sub.failed_payment_count + 1 ∧
       pay.is_retry = decide (0 < c4Sub.failed_payment_count) ∧
       pay.period_start = c4Sub.current_period_start ∧
       pay.period_end = c4Sub.current_period_end) ∧
    ((runBilling (c4DbAfter 0) 1 (c4Calls 2)).payments.map
       (fun p => p.attempt_number)) = List.range' 1 3 := by
  constructor
  · exact (attempt_numbering.1 (c4DbAfter 0) 1 0 42 c4Sub c4Plan (by decide)
      (by decide) (by decide) (by decide) (by decide))
      (GatewayOutcome.failure "c" "m")
  · exact (attempt_numbering.2 2).1

/-- Witness for claim C5 at concrete inputs: cancelling an already-cancelled
record, and the second of two cancels. -/
theorem cancel_subscription_idempotent_witness :
    cancel_subscription exDbCancelled 10 true (some "z") 99 =
      .ok (exSubCancelled, exDbCancelled, []) ∧
    cancel_subscription exDbCancelledOnce 1 true none 99 =
      .ok (exCancelledOnce, exDbCancelledOnce, []) := by
  constructor
  · exact cancel_subscription_idempotent.1 exDbCancelled 10 true (some "z") 99
      exSubCancelled (by decide) (by decide)
  · exact cancel_subscription_idempotent.2 (c4DbAfter 0) 1 (some "r") 5
      exCancelledOnce exDbCancelledOnce [BEvent.cancelled 1] (by rfl) true none 99

/-- Witness for claim C6 at a concrete input: a gateway exception during a
billing attempt. -/
theorem gateway_exception_not_propagated_witness :
    ∃ pay db',
      process_billing (c4DbAfter 0) 1 0 (.apiError "API Error") 42 =
        .ok (pay, db', [.billed_failure c4Sub.sub_id "API Error"]) ∧
      pay.status = PaymentStatus.failure ∧
      pay.error_message = some "API Error" ∧
      pay ∈ db'.payments ∧
      ∀ s ∈ db'.subs, s.sub_id = c4Sub.sub_id →
        s.status = SubscriptionStatus.past_due ∧
        s.last_payment_error = some "API Error" :=
  gateway_exception_not_propagated (c4DbAfter 0) 1 0 42 "API Error" c4Sub c4Plan
    (by decide) (by decide) (by decide) (by decide) (by decide)

/-- Witness for claim C7 at concrete inputs: an upgrade to a cheaper plan and
a downgrade to a pricier plan. -/
theorem upgrade_downgrade_direction_guard_witness :
    upgrade_subscription exDbTwoPlans 1 2 false 0 (GatewayOutcome.success "p") 9 =
      .error (.validation "must be a higher-tier plan") ∧
    downgrade_subscription exDbTwoPlans 1 3 false 0 =
      .error (.validation "must be a lower-tier plan") := by
  constructor
  · exact upgrade_downgrade_direction_guard.1 exDbTwoPlans 1 2 false 0
      (GatewayOutcome.success "p") 9 c4Sub c4Plan exPlanCheap (by decide)
      (by decide) (by decide) (by decide) (by decide)
  · exact upgrade_downgrade_direction_guard.2 exDbTwoPlans 1 3 false 0 c4Sub
      c4Plan exPlanPricey (by decide) (by decide) (by decide) (by decide)
      (by decide)

/-- Witness for claim C8 at concrete inputs: an inactive plan and a plan at
capacity. -/
theorem create_subscription_plan_guard_witness :
    (create_subscription exDbInactive 5 2 1 false 0 (GatewayOutcome.success "p") 9 =
       .error (.validation "Plan is not available for new subscriptions") ∧
     containsStr "Plan is not available for new subscriptions"
       "not available" = true) ∧
    (create_subscription exDbCapped 6 2 1 false 0 (GatewayOutcome.success "p") 9 =
       .error (.validation "plan at capacity") ∧
     containsStr "plan at capacity" "capacity" = true) := by
  constructor
  · exact create_subscription_plan_guard.1 exDbInactive 5 2 1 false 0 9
      exPlanInactive (by decide) (by decide) (GatewayOutcome.success "p")
  · exact create_subscription_plan_guard.2 exDbCapped 6 2 1 false 0 9
      exPlanCapped 1 (by decide) (by decide) (by decide) (by decide)
      (GatewayOutcome.success "p")

/-- Witness for claim C9 at concrete inputs: survival of a subscription id
across a concrete lifecycle step, the PROTECT guard on a referenced plan, and
the cascade equation. -/
theorem subscriptions_never_hard_deleted_witness :
    (∃ s' ∈ exDbPaused.subs, s'.sub_id = c4Sub.sub_id) ∧
    deletePlan (c4DbAfter 0) 1 = none ∧
    (deleteUser exDbCancelled 1).subs =
      exDbCancelled.subs.filter (fun s => !(s.user_id == 1)) := by
  refine ⟨?_, ?_, ?_⟩
  · exact subscriptions_never_hard_deleted.1 (c4DbAfter 0) exDbPaused
      (Relation.ReflTransGen.single (LifecycleStep.pause (c4DbAfter 0) 1
        exPausedSub exDbPaused [BEvent.paused 1] (by rfl))) c4Sub (by decide)
  · exact subscriptions_never_hard_deleted.2.1 (c4DbAfter 0) 1
      ⟨c4Sub, by decide, by decide⟩
  · exact subscriptions_never_hard_deleted.2.2 exDbCancelled 1

/-- Witness for claim C10 at concrete inputs: one event from each lifecycle
operation. -/
theorem lifecycle_signals_witness :
    ([BEvent.created 5] = [BEvent.created 5]) ∧
    (∃ pay db', process_billing (c4DbAfter 0) 1 0 (.success "pv") 42 =
       .ok (pay, db', [.billed_success c4Sub.sub_id c4Plan.price])) ∧
    (∃ s' db', cancel_subscription (c4DbAfter 0) 1 true none 7 =
       .ok (s', db', [.cancelled 1])) ∧
    (∃ s' db', pause_subscription (c4DbAfter 0) 1 = .ok (s', db', [.paused 1])) ∧
    (∃ s' db', resume_subscription exDbPaused 1 = .ok (s', db', [.resumed 1])) := by
  have h := lifecycle_signals
  refine ⟨?_, ?_, ?_, ?_, ?_⟩
  · exact h.1 exDbTrial 5 2 1 true 0 (GatewayOutcome.success "p") 9
      (trialSub 5 2 1 exPlanTrial 0)
      { exDbTrial with subs := [trialSub 5 2 1 exPlanTrial 0] }
      [BEvent.created 5] (by rfl)
  · exact (h.2.1 (c4DbAfter 0) 1 0 42 c4Sub c4Plan (by decide) (by decide)
      (by decide) (by decide) (by decide)).1 "pv"
  · exact h.2.2.1 (c4DbAfter 0) 1 true none 7 c4Sub (by decide) (by decide)
  · exact h.2.2.2.1 (c4DbAfter 0) 1 c4Sub (by decide) (by decide)
  · exact h.2.2.2.2 exDbPaused 1 exPausedSub (by decide) (by decide)
